import Mathlib

/-
Shallow embedding of src/node_cross_reference.py (the disposition
classification engine of the node cross-reference tool).  Python machine
types are modelled as: str -> String / List Char, int -> Nat or Int,
Optional[T] -> Option T, datetime -> Int (seconds since the Unix epoch),
raised exceptions -> Except String.  Every function that calls
datetime.now() in the source takes an explicit `now : Int` parameter.
-/

namespace Noder

/-! ### Python string primitives -/

/-- Python whitespace class (`\s` and `str.strip` default, ASCII part). -/
def isPySpace (c : Char) : Bool :=
  c = ' ' || c = '\t' || c = '\n' || c = '\r' || c = Char.ofNat 11 || c = Char.ofNat 12

/-- Python `str.strip()` on a character list. -/
def pyStrip (cs : List Char) : List Char :=
  ((cs.dropWhile isPySpace).reverse.dropWhile isPySpace).reverse

/-- Python `str.upper()` (ASCII). -/
def pyUpper (cs : List Char) : List Char := cs.map Char.toUpper

/-- Python `str.lower()` (ASCII). -/
def pyLower (cs : List Char) : List Char := cs.map Char.toLower

/-- Python substring test `needle in hay`. -/
def isSubstring (needle : List Char) : List Char → Bool
  | [] => needle.isPrefixOf []
  | c :: cs => needle.isPrefixOf (c :: cs) || isSubstring needle cs

/-- Digit run to a natural number, as Python `int` on a digit string. -/
def natOfDigits (cs : List Char) : Nat :=
  cs.foldl (fun acc c => 10 * acc + (c.toNat - 48)) 0

/-- Take the maximal leading run of characters satisfying `p`. -/
def takeRun (p : Char → Bool) (cs : List Char) : List Char × List Char :=
  (cs.takeWhile p, cs.dropWhile p)

/-- Take at most `k` leading digits (maximal). -/
def takeDigitsUpTo : Nat → List Char → List Char × List Char
  | 0, cs => ([], cs)
  | _ + 1, [] => ([], [])
  | k + 1, c :: cs =>
    if c.isDigit then
      let (ds, rest) := takeDigitsUpTo k cs
      (c :: ds, rest)
    else ([], c :: cs)

/-- Python truthiness of an `Optional[int]`: `None` and `0` are falsy. -/
def pyTruthyOptNat : Option Nat → Bool
  | none => false
  | some n => n ≠ 0

/-- Render an `Optional[int]` the way a Python f-string does. -/
def pyShowOptInt : Option Int → String
  | none => "None"
  | some n => toString n

/-- Render an `Optional[int]` node/store number the way a Python f-string does. -/
def pyShowOptNat : Option Nat → String
  | none => "None"
  | some n => toString n

/-- Render an `Optional[str]` the way a Python f-string does. -/
def pyShowOptStr : Option String → String
  | none => "None"
  | some s => s

/-- Python `repr` of a sorted int list, e.g. `[1, 2]` (used by f-strings). -/
def pyShowNatList (ns : List Nat) : String :=
  "[" ++ String.intercalate ", " (ns.map toString) ++ "]"

/-- Insertion sort, modelling Python `sorted` on a set of ints. -/
def insertSorted (n : Nat) : List Nat → List Nat
  | [] => [n]
  | m :: ms => if n ≤ m then n :: m :: ms else m :: insertSorted n ms

/-- Python `sorted` on a collection of ints. -/
def sortNats (ns : List Nat) : List Nat := ns.foldr insertSorted []

/-! ### Date parsing (`datetime.strptime` over the fixed format lists)

A parsed datetime is represented by its epoch-second count.  The format
directives used by the source are `%d %m %b %Y %H %M %S` plus literal
separators; whitespace in a format matches one-or-more whitespace.  -/

structure DateParts where
  y : Nat
  mo : Nat
  d : Nat
  h : Nat := 0
  mi : Nat := 0
  s : Nat := 0
deriving Repr, DecidableEq

/-- One `strptime` directive or literal. -/
inductive DTok where
  | lit : Char → DTok
  | ws : DTok
  | dd : DTok
  | mm : DTok
  | bb : DTok
  | yy : DTok
  | hh : DTok
  | mi : DTok
  | ss : DTok
deriving Repr, DecidableEq

/-- Month abbreviation (lower-cased) to month number, as `%b`. -/
def monthAbbr : List Char → Option Nat
  | ['j', 'a', 'n'] => some 1
  | ['f', 'e', 'b'] => some 2
  | ['m', 'a', 'r'] => some 3
  | ['a', 'p', 'r'] => some 4
  | ['m', 'a', 'y'] => some 5
  | ['j', 'u', 'n'] => some 6
  | ['j', 'u', 'l'] => some 7
  | ['a', 'u', 'g'] => some 8
  | ['s', 'e', 'p'] => some 9
  | ['o', 'c', 't'] => some 10
  | ['n', 'o', 'v'] => some 11
  | ['d', 'e', 'c'] => some 12
  | _ => none

/-- Run one directive against the input, updating the parts. -/
def runDTok (t : DTok) (p : DateParts) (cs : List Char) : Option (DateParts × List Char) :=
  match t with
  | .lit c => match cs with
    | [] => none
    | c2 :: rest => if c2 = c then some (p, rest) else none
  | .ws =>
    let (run, rest) := takeRun isPySpace cs
    if run = [] then none else some (p, rest)
  | .dd =>
    let (ds, rest) := takeDigitsUpTo 2 cs
    if ds = [] then none else
      let v := natOfDigits ds
      if 1 ≤ v ∧ v ≤ 31 then some ({ p with d := v }, rest) else none
  | .mm =>
    let (ds, rest) := takeDigitsUpTo 2 cs
    if ds = [] then none else
      let v := natOfDigits ds
      if 1 ≤ v ∧ v ≤ 12 then some ({ p with mo := v }, rest) else none
  | .bb => match cs with
    | a :: b :: c :: rest =>
      match monthAbbr (pyLower [a, b, c]) with
      | some m => some ({ p with mo := m }, rest)
      | none => none
    | _ => none
  | .yy =>
    let (ds, rest) := takeDigitsUpTo 4 cs
    if ds.length = 4 then some ({ p with y := natOfDigits ds }, rest) else none
  | .hh =>
    let (ds, rest) := takeDigitsUpTo 2 cs
    if ds = [] then none else
      let v := natOfDigits ds
      if v ≤ 23 then some ({ p with h := v }, rest) else none
  | .mi =>
    let (ds, rest) := takeDigitsUpTo 2 cs
    if ds = [] then none else
      let v := natOfDigits ds
      if v ≤ 59 then some ({ p with mi := v }, rest) else none
  | .ss =>
    let (ds, rest) := takeDigitsUpTo 2 cs
    if ds = [] then none else
      let v := natOfDigits ds
      if v ≤ 59 then some ({ p with s := v }, rest) else none

/-- Run a whole format; the input must be consumed entirely. -/
def runFmt : List DTok → DateParts → List Char → Option DateParts
  | [], p, cs => if cs = [] then some p else none
  | t :: ts, p, cs =>
    match runDTok t p cs with
    | some (p2, rest) => runFmt ts p2 rest
    | none => none

def isLeapYear (y : Nat) : Bool :=
  y % 4 = 0 && (y % 100 ≠ 0 || y % 400 = 0)

def daysInMonth (y : Nat) (m : Nat) : Nat :=
  match m with
  | 1 => 31 | 2 => if isLeapYear y then 29 else 28
  | 3 => 31 | 4 => 30 | 5 => 31 | 6 => 30 | 7 => 31
  | 8 => 31 | 9 => 30 | 10 => 31 | 11 => 30 | 12 => 31
  | _ => 0

/-- Days from the Unix epoch to civil date y-m-d (standard civil-days formula). -/
def daysFromCivil (y0 : Int) (m : Int) (d : Int) : Int :=
  let y := if m ≤ 2 then y0 - 1 else y0
  let era := Int.fdiv y 400
  let yoe := y - era * 400
  let mp := if m > 2 then m - 3 else m + 9
  let doy := Int.fdiv (153 * mp + 2) 5 + d - 1
  let doe := yoe * 365 + Int.fdiv yoe 4 - Int.fdiv yoe 100 + doy
  era * 146097 + doe - 719468

/-- `datetime` construction: validates the date and yields epoch seconds. -/
def toEpoch (p : DateParts) : Option Int :=
  if 1 ≤ p.y ∧ 1 ≤ p.d ∧ p.d ≤ daysInMonth p.y p.mo ∧ 1 ≤ p.mo ∧ p.mo ≤ 12 then
    some (daysFromCivil (Int.ofNat p.y) (Int.ofNat p.mo) (Int.ofNat p.d) * 86400
          + Int.ofNat p.h * 3600 + Int.ofNat p.mi * 60 + Int.ofNat p.s)
  else none

/-- Try the formats in order; first one that parses and validates wins. -/
def pyStrptimeList : List (List DTok) → List Char → Option Int
  | [], _ => none
  | f :: fs, cs =>
    match runFmt f {y := 0, mo := 0, d := 0} cs with
    | some p =>
      match toEpoch p with
      | some e => some e
      | none => pyStrptimeList fs cs
    | none => pyStrptimeList fs cs

/-- Format list of `Ticket._parse_date` (in source order). -/
def ticketDateFormats : List (List DTok) :=
  [ [.dd, .lit '-', .bb, .lit '-', .yy, .ws, .hh, .lit ':', .mi, .lit ':', .ss]
  , [.yy, .lit '-', .mm, .lit '-', .dd, .ws, .hh, .lit ':', .mi, .lit ':', .ss]
  , [.mm, .lit '/', .dd, .lit '/', .yy, .ws, .hh, .lit ':', .mi, .lit ':', .ss]
  , [.dd, .lit '/', .mm, .lit '/', .yy, .ws, .hh, .lit ':', .mi, .lit ':', .ss]
  , [.yy, .lit '-', .mm, .lit '-', .dd]
  , [.dd, .lit '-', .bb, .lit '-', .yy]
  , [.mm, .lit '/', .dd, .lit '/', .yy]
  , [.dd, .lit '/', .mm, .lit '/', .yy] ]

/-- Format list of `OfflineNode._parse_date` (in source order). -/
def nodeDateFormats : List (List DTok) :=
  [ [.yy, .lit '-', .mm, .lit '-', .dd, .ws, .hh, .lit ':', .mi, .lit ':', .ss]
  , [.dd, .lit '-', .bb, .lit '-', .yy, .ws, .hh, .lit ':', .mi, .lit ':', .ss]
  , [.mm, .lit '/', .dd, .lit '/', .yy, .ws, .hh, .lit ':', .mi, .lit ':', .ss]
  , [.dd, .lit '/', .mm, .lit '/', .yy, .ws, .hh, .lit ':', .mi, .lit ':', .ss]
  , [.yy, .lit '-', .mm, .lit '-', .dd]
  , [.dd, .lit '-', .bb, .lit '-', .yy]
  , [.mm, .lit '/', .dd, .lit '/', .yy]
  , [.dd, .lit '/', .mm, .lit '/', .yy] ]

/-- `Ticket._parse_date`: strip, then try each format; `None` on failure. -/
def ticketParseDate (s : String) : Option Int :=
  let cs := pyStrip s.data
  if cs = [] then none else pyStrptimeList ticketDateFormats cs

/-- `OfflineNode._parse_date`: same scheme, node-report format order. -/
def nodeParseDate (s : String) : Option Int :=
  let cs := pyStrip s.data
  if cs = [] then none else pyStrptimeList nodeDateFormats cs

/-- `timedelta.days` of `a - b` seconds: floor division by 86400. -/
def tdDays (a b : Int) : Int := Int.fdiv (a - b) 86400

/-! ### Ticket and result records -/

/-- `Ticket` dataclass. -/
structure Ticket where
  site : String
  number : String
  description : String
  priority : String
  created : String
  updated : String
  resolved : Option String := none
  assignment_group : Option String := none
  store_number : Option Nat := none
  node_number : Option Nat := none
deriving Repr, DecidableEq

/-- `Ticket.is_closed`: resolved present and non-blank. -/
def Ticket.is_closed (t : Ticket) : Bool :=
  match t.resolved with
  | none => false
  | some s => pyStrip s.data ≠ []

/-- `Ticket.created_datetime`. -/
def Ticket.created_datetime (t : Ticket) : Option Int := ticketParseDate t.created

/-- `Ticket.updated_datetime`. -/
def Ticket.updated_datetime (t : Ticket) : Option Int := ticketParseDate t.updated

/-- `Ticket.resolved_datetime`. -/
def Ticket.resolved_datetime (t : Ticket) : Option Int :=
  match t.resolved with
  | none => none
  | some s => if pyStrip s.data = [] then none else ticketParseDate s

/-- `Ticket.is_reopenable(max_days)`: closed within `max_days` of `now`. -/
def Ticket.is_reopenable (t : Ticket) (max_days : Int) (now : Int) : Bool :=
  if ¬ t.is_closed then false
  else
    match t.resolved_datetime with
    | none => false
    | some rd => tdDays now rd ≤ max_days

/-- `OfflineNode` dataclass. -/
structure OfflineNode where
  store_number : Nat
  node_number : Nat
  esp_id : String
  last_seen : String
deriving Repr, DecidableEq

/-- `OfflineNode.last_seen_datetime`. -/
def OfflineNode.last_seen_datetime (n : OfflineNode) : Option Int := nodeParseDate n.last_seen

/-- `OfflineNode.days_offline()`. -/
def OfflineNode.days_offline (n : OfflineNode) (now : Int) : Option Int :=
  n.last_seen_datetime.map (fun d => tdDays now d)

/-- `OfflineNode.is_long_term_offline(threshold_days)`. -/
def OfflineNode.is_long_term_offline (n : OfflineNode) (threshold_days : Int) (now : Int) : Bool :=
  match n.days_offline now with
  | some d => threshold_days ≤ d
  | none => false

/-- `AnalysisResult` dataclass, with the dataclass field defaults. -/
structure AnalysisResult where
  ticket : Ticket
  status : String
  reason : String
  store_in_report : Bool := false
  node_in_report : Bool := false
  confidence : String := "medium"
  business_logic_flag : String := ""
  temporal_analysis : String := ""
  days_offline : Option Int := none
  reopenable : Bool := false
deriving Repr, DecidableEq

/-! ### Regex catalogs

The extraction and flag regexes of the source use only literals, the
classes `\s \d \w [TED] [12]`, and `* +` repetition, and in every pattern
each repetition is followed by a character the repeated class cannot
match, so greedy matching never backtracks: maximal-munch matching is
exact.  `searchPat` is `re.search` (leftmost occurrence). -/

inductive PatAtom where
  | lit : List Char → PatAtom
  | star : (Char → Bool) → PatAtom
  | plus : (Char → Bool) → PatAtom
  | capPlus : (Char → Bool) → PatAtom

def digitP (c : Char) : Bool := c.isDigit

def wordP (c : Char) : Bool := c.isAlphanum || c = '_'

def tedP (c : Char) : Bool := c = 'T' || c = 'E' || c = 'D'

/-- Match a pattern anchored at the start; returns the single capture (if
the pattern has one) and the rest of the input after the match. -/
def matchAtoms : List PatAtom → List Char → Option (Option (List Char) × List Char)
  | [], cs => some (none, cs)
  | a :: as, cs =>
    match a with
    | .lit l => if l.isPrefixOf cs then matchAtoms as (cs.drop l.length) else none
    | .star p => matchAtoms as (cs.dropWhile p)
    | .plus p =>
      let (run, rest) := takeRun p cs
      if run = [] then none else matchAtoms as rest
    | .capPlus p =>
      let (run, rest) := takeRun p cs
      if run = [] then none else
        match matchAtoms as rest with
        | some (_, r) => some (some run, r)
        | none => none

/-- `re.search`: try the pattern at each position, leftmost match wins. -/
def searchPat (atoms : List PatAtom) : List Char → Option (Option (List Char))
  | [] => (matchAtoms atoms []).map Prod.fst
  | c :: cs =>
    match matchAtoms atoms (c :: cs) with
    | some (cap, _) => some cap
    | none => searchPat atoms cs

/-- `re.search` + `int(match.group(1))` for a single-capture pattern. -/
def searchNat (atoms : List PatAtom) (cs : List Char) : Option Nat :=
  match searchPat atoms cs with
  | some (some ds) => some (natOfDigits ds)
  | _ => none

/-- `re.search(...)` used as a boolean test. -/
def searchHit (atoms : List PatAtom) (cs : List Char) : Bool :=
  (searchPat atoms cs).isSome

/-- The ordered node-number pattern catalog of `extract_node_number`. -/
def nodePatterns : List (List PatAtom) :=
  [ [.lit ['N','O','D','E'], .star isPySpace, .capPlus digitP]
  , [.lit ['N','O','D','E'], .star isPySpace, .lit ['('], .capPlus digitP, .lit [')']]
  , [.lit ['N','O','D','E'], .star isPySpace, .lit ['#'], .capPlus digitP]
  , [.lit ['*','*','N','O','D','E'], .star isPySpace, .capPlus digitP, .lit ['*','*']]
  , [.lit ['E','S','P'], .plus isPySpace, .lit ['N','O','D','E'], .star isPySpace, .capPlus digitP]
  , [.lit ['N','O','D','E','('], .star isPySpace, .capPlus digitP, .star isPySpace, .lit [')']]
  , [.lit ['N','O','D','E','S'], .star isPySpace, .capPlus digitP]
  , [.lit ['N','O','D','E','-'], .capPlus digitP]
  , [.lit ['N','O','D','E','_'], .capPlus digitP] ]

/-- The pattern loop of `extract_node_number`: first pattern that matches
decides; a captured value outside {1,2} yields `None` and stops the scan. -/
def scanNodePatterns : List (List PatAtom) → List Char → Option (Option Nat)
  | [], _ => none
  | p :: ps, d =>
    match searchNat p d with
    | some n => some (if n = 1 ∨ n = 2 then some n else none)
    | none => scanNodePatterns ps d

/-- `extract_node_number(description)`. -/
def extract_node_number (description : String) : Option Nat :=
  let desc := pyUpper description.data
  match scanNodePatterns nodePatterns desc with
  | some r => r
  | none =>
    if isSubstring ['N','O','D','E','S'] desc && isSubstring ['N','O','D','E'] desc then
      none
    else
      none

def aposChar : Char := Char.ofNat 39

/-- `do_not_close_patterns`. -/
def doNotClosePatterns : List (List PatAtom) :=
  [ [.lit ['D','O'], .star isPySpace, .lit ['N','O','T'], .star isPySpace, .lit ['C','L','O','S','E']]
  , [.lit ['D','O','N', aposChar, 'T'], .star isPySpace, .lit ['C','L','O','S','E']]
  , [.lit ['D','O','N','T'], .star isPySpace, .lit ['C','L','O','S','E']]
  , [.lit ['N','O','T'], .star isPySpace, .lit ['T','O'], .star isPySpace, .lit ['C','L','O','S','E']]
  , [.lit ['K','E','E','P'], .star isPySpace, .lit ['O','P','E','N']] ]

/-- `workflow_patterns`. -/
def workflowPatterns : List (List PatAtom) :=
  [ [.lit ['*','A','E','X'], .plus isPySpace, .lit ['S','U','B','M','I','T'], .star tedP, .lit ['*']]
  , [.lit ['*','A','W','A','I','T','I','N','G'], .plus isPySpace, .lit ['A','P','P','R','O','V','A','L','*']]
  , [.lit ['*','T','E','C','H'], .plus isPySpace, .lit ['S','U','B','M','I','T'], .star tedP, .lit ['*']]
  , [.lit ['*','A','P','P','R','O','V','E','D','*']]
  , [.lit ['*','A','W','A','I','T','I','N','G'], .plus isPySpace, .lit ['I','N','F','O','*']]
  , [.lit ['*','A','W','A','I','T','I','N','G'], .plus isPySpace, .lit ['A','S','S','E','T','*']]
  , [.lit ['*','A','W','A','I','T','I','N','G'], .plus isPySpace, .lit ['U','P','G','R','A','D','E','*']]
  , [.lit ['*','E','O','L','*']]
  , [.lit ['W','O'], .plus digitP]
  , [.lit ['C','S'], .plus digitP] ]

/-- `special_instruction_patterns`. -/
def specialInstructionPatterns : List (List PatAtom) :=
  [ [.lit ['O','N','C','E'], .plus isPySpace, .plus wordP, .plus isPySpace,
     .lit ['N','O','D','E'], .plus isPySpace, .lit ['I','S'], .plus isPySpace,
     .lit ['I','N','S','T','A','L','L','E','D']]
  , [.lit ['A','F','T','E','R'], .plus isPySpace, .plus wordP]
  , [.lit ['P','E','N','D','I','N','G'], .plus isPySpace, .plus wordP]
  , [.lit ['W','A','I','T','I','N','G'], .plus isPySpace, .lit ['F','O','R'], .plus isPySpace, .plus wordP] ]

/-- `detect_business_logic_flags(site, description)`. -/
def detect_business_logic_flags (site description : String) : Bool × String :=
  let combined := pyUpper (site.data ++ [' '] ++ description.data)
  if doNotClosePatterns.any (fun p => searchHit p combined) then (true, "do_not_close")
  else if workflowPatterns.any (fun p => searchHit p combined) then (true, "workflow_status")
  else if specialInstructionPatterns.any (fun p => searchHit p combined) then
    (true, "special_instructions")
  else (false, "")

/-! ### The offline-node index and its dictionary/set primitives

Python dicts keep insertion order and update values in place; sets are
modelled as duplicate-free lists (append on add), with `sorted` applied
exactly where the source applies it. -/

/-- `dict.get(k)` on an insertion-ordered association list. -/
def dget {κ α : Type} [DecidableEq κ] : List (κ × α) → κ → Option α
  | [], _ => none
  | (k0, v0) :: rest, k => if k = k0 then some v0 else dget rest k

/-- `dict[k] = v`: replace in place, else append. -/
def dset {κ α : Type} [DecidableEq κ] : List (κ × α) → κ → α → List (κ × α)
  | [], k, v => [(k, v)]
  | (k0, v0) :: rest, k, v =>
    if k = k0 then (k0, v) :: rest else (k0, v0) :: dset rest k v

/-- `set.add(n)`: append if absent. -/
def setAdd (s : List Nat) (n : Nat) : List Nat :=
  if n ∈ s then s else s ++ [n]

/-- The offline-node index fields of `NodeCrossReference`. -/
structure NodeIndex where
  offline_nodes : List (Nat × List Nat) := []
  offline_nodes_detailed : List ((Nat × Nat) × OfflineNode) := []
  saf_stores : List Nat := []
  both_nodes_offline_stores : List Nat := []
deriving Repr, DecidableEq

def aposStr : String := String.mk [aposChar]

/-- `_format_offline_nodes_message(offline_nodes, suffix)`. -/
def format_offline_nodes_message (offline_nodes : List Nat) (suffix : String) : String :=
  if offline_nodes.length = 1 then
    let node_num := offline_nodes.headD 0
    String.mk (pyStrip ("Node " ++ toString node_num ++ " is offline " ++ suffix).data)
  else
    let nodes_list := sortNats offline_nodes
    String.mk (pyStrip ("Nodes " ++ String.intercalate " and " (nodes_list.map toString)
      ++ " are offline " ++ suffix).data)

/-- `determine_confidence(ticket, store_in_report, node_in_report, business_flag)`. -/
def determine_confidence (t : Ticket) (store_in_report node_in_report : Bool)
    (business_flag : String) : String :=
  if business_flag ≠ "" then "low"
  else if t.store_number = none then "low"
  else if t.node_number = none ∧ store_in_report then "low"
  else if ¬ store_in_report then "high"
  else if store_in_report ∧ t.node_number ≠ none then "high"
  else "medium"

/-- `create_analysis_result(...)`: helper filling all temporal fields. -/
def create_analysis_result (t : Ticket) (status reason : String)
    (store_in_report node_in_report : Bool) (confidence : String)
    (business_flag : String) (temporal_analysis : String)
    (days_offline : Option Int) (now : Int) : AnalysisResult :=
  { ticket := t, status := status, reason := reason,
    store_in_report := store_in_report, node_in_report := node_in_report,
    confidence := confidence, business_logic_flag := business_flag,
    temporal_analysis := temporal_analysis, days_offline := days_offline,
    reopenable := if t.is_closed then t.is_reopenable 7 now else true }

/-! ### Temporal correlator -/

/-- Python `max(nodes, key=lambda x: x.days_offline())`: comparing a `None`
key with anything raises `TypeError`. -/
def maxByDaysOffline (now : Int) : OfflineNode → List OfflineNode → Except String OfflineNode
  | best, [] => Except.ok best
  | best, x :: xs =>
    match x.days_offline now, best.days_offline now with
    | some a, some b =>
      if b < a then maxByDaysOffline now x xs else maxByDaysOffline now best xs
    | _, _ => Except.error "TypeError: NoneType and int comparison"

/-- `_analyze_specific_node_temporal(ticket, offline_node)`. -/
def analyze_specific_node_temporal (t : Ticket) (offline_node : OfflineNode) (now : Int) :
    String × Option Int × Bool :=
  let days_offline := offline_node.days_offline now
  match t.created_datetime, offline_node.last_seen_datetime with
  | some c, some ls =>
    let node_offline_before_ticket := ls < c
    match t.resolved_datetime with
    | some r =>
      if ls > r ∧ t.is_closed then
        ("Timeline anomaly: Node went offline AFTER ticket was resolved. Node offline since "
          ++ offline_node.last_seen, days_offline, true)
      else if node_offline_before_ticket then
        ("Node was offline " ++ toString (tdDays c ls) ++ " days before ticket was created",
          days_offline, false)
      else
        ("Normal timeline: Node offline before resolution", days_offline, false)
    | none =>
      if node_offline_before_ticket then
        ("Node was offline " ++ toString (tdDays c ls) ++ " days before ticket was created",
          days_offline, false)
      else
        ("Node went offline around ticket creation time", days_offline, false)
  | _, _ => ("", days_offline, false)

/-- The store-level fallback half of `analyze_temporal_correlation`. -/
def temporalGeneral (idx : NodeIndex) (s : Nat) (now : Int) :
    Except String (String × Option Int × Bool) :=
  match dget idx.offline_nodes s with
  | none => Except.ok ("Store has no offline nodes currently", none, false)
  | some offline_nodes_for_store =>
    let store_offline_nodes :=
      (offline_nodes_for_store.map (fun n => dget idx.offline_nodes_detailed (s, n))).filterMap id
    match store_offline_nodes with
    | [] =>
      Except.ok ("Store has " ++ toString offline_nodes_for_store.length
        ++ " offline nodes (no detailed timing)", none, false)
    | x :: xs =>
      match maxByDaysOffline now x xs with
      | Except.error e => Except.error e
      | Except.ok longest =>
        let days_offline := longest.days_offline now
        if offline_nodes_for_store.length = 1 then
          Except.ok ("Single node offline for " ++ pyShowOptInt days_offline ++ " days",
            days_offline, false)
        else
          Except.ok ("Multiple nodes offline (longest: " ++ pyShowOptInt days_offline ++ " days)",
            days_offline, false)

/-- `analyze_temporal_correlation(ticket)`: note the truthiness test
`if not ticket.store_number` (store number 0 counts as missing here). -/
def analyze_temporal_correlation (idx : NodeIndex) (t : Ticket) (now : Int) :
    Except String (String × Option Int × Bool) :=
  if ¬ pyTruthyOptNat t.store_number then
    Except.ok ("No store number identified", none, false)
  else
    let s := t.store_number.getD 0
    match t.node_number with
    | some n =>
      match dget idx.offline_nodes_detailed (s, n) with
      | some offline_node => Except.ok (analyze_specific_node_temporal t offline_node now)
      | none => temporalGeneral idx s now
    | none => temporalGeneral idx s now

/-! ### Disposition classifier -/

/-- The `flag_descriptions` lookup with its `.get` default. -/
def flagDescription (business_flag : String) : String :=
  if business_flag = "do_not_close" then
    "Ticket contains " ++ aposStr ++ "do not close" ++ aposStr ++ " instructions"
  else if business_flag = "workflow_status" then "Ticket has workflow status indicators"
  else if business_flag = "special_instructions" then "Ticket contains special handling instructions"
  else if business_flag = "critical_saf" then "CRITICAL: Store has SAF (Store and Forward) failure"
  else if business_flag = "critical_both_nodes_offline" then "CRITICAL: Store has both nodes offline"
  else "Business logic flag detected"

/-- `analyze_ticket(ticket)`: the open-ticket entry point (a raised
exception from the temporal pass or a missing dict key propagates). -/
def analyze_ticket (idx : NodeIndex) (t : Ticket) (now : Int) : Except String AnalysisResult :=
  let fb := detect_business_logic_flags t.site t.description
  let has_business_flag := fb.1
  let business_flag := fb.2
  match analyze_temporal_correlation idx t now with
  | Except.error e => Except.error e
  | Except.ok (temporal_analysis, days_offline, _has_timeline_issue) =>
    if t.is_closed ∧ ¬ t.is_reopenable 7 now then
      Except.ok
        { ticket := t, status := "closed_too_old",
          reason := "Ticket closed more than 7 days ago (" ++ pyShowOptStr t.resolved
            ++ ") - cannot be reopened",
          store_in_report := false, node_in_report := false, confidence := "high",
          business_logic_flag := business_flag, temporal_analysis := temporal_analysis,
          days_offline := days_offline, reopenable := false }
    else
      match t.store_number with
      | none =>
        Except.ok
          { ticket := t, status := "error",
            reason := "Could not extract store number from site field",
            store_in_report := false, node_in_report := false,
            confidence := determine_confidence t false false business_flag,
            business_logic_flag := business_flag, temporal_analysis := temporal_analysis,
            days_offline := days_offline,
            reopenable := if t.is_closed then t.is_reopenable 7 now else true }
      | some s =>
        let store_in_report := (dget idx.offline_nodes s).isSome
        if s ∈ idx.saf_stores then
          let offline_nodes_for_store := (dget idx.offline_nodes s).getD []
          Except.ok (create_analysis_result t "needs_review"
            ("CRITICAL: Store has SAF (Store and Forward) failure - both nodes offline ("
              ++ pyShowNatList (sortNats offline_nodes_for_store)
              ++ "). REQUIRES IMMEDIATE ATTENTION.")
            true true "high" "critical_saf" temporal_analysis days_offline now)
        else if s ∈ idx.both_nodes_offline_stores then
          match dget idx.offline_nodes s with
          | none => Except.error "KeyError"
          | some offline_nodes_for_store =>
            Except.ok (create_analysis_result t "needs_review"
              ("CRITICAL: Store has BOTH nodes offline ("
                ++ pyShowNatList (sortNats offline_nodes_for_store)
                ++ "). Complete store connectivity loss. REQUIRES IMMEDIATE ATTENTION.")
              true true "high" "critical_both_nodes_offline" temporal_analysis days_offline now)
        else if has_business_flag then
          let relief : Option (Except String AnalysisResult) :=
            if business_flag = "workflow_status" then
              if ¬ store_in_report then
                some (Except.ok
                  { ticket := t, status := "can_close",
                    reason := "Workflow status ticket - store not in offline report, all nodes confirmed online",
                    store_in_report := false, node_in_report := false,
                    confidence := determine_confidence t false false "",
                    business_logic_flag := business_flag })
              else
                match dget idx.offline_nodes s with
                | none => some (Except.error "KeyError")
                | some offline_nodes_for_store =>
                  let node_actually_offline :=
                    match t.node_number with
                    | none => true
                    | some n => offline_nodes_for_store.contains n
                  if !node_actually_offline then
                    let status_detail := "Node " ++ pyShowOptNat t.node_number
                      ++ " is back online (other "
                      ++ String.mk (pyLower (format_offline_nodes_message offline_nodes_for_store "").data)
                      ++ ")"
                    some (Except.ok
                      { ticket := t, status := "can_close",
                        reason := "Workflow status ticket - node is back online. Status: " ++ status_detail,
                        store_in_report := store_in_report, node_in_report := false,
                        confidence := determine_confidence t store_in_report false "",
                        business_logic_flag := business_flag })
                  else none
            else none
          match relief with
          | some r => r
          | none =>
            let confidence := determine_confidence t store_in_report false business_flag
            let base_reason := flagDescription business_flag
            let node_in_report_arg :=
              if pyTruthyOptNat t.node_number then
                ((dget idx.offline_nodes s).getD []).contains (t.node_number.getD 0)
              else false
            if ¬ store_in_report then
              Except.ok (create_analysis_result t "needs_review"
                (base_reason ++ " - requires manual review. Status: "
                  ++ "No nodes from this store are currently offline")
                store_in_report node_in_report_arg confidence business_flag
                temporal_analysis days_offline now)
            else
              match dget idx.offline_nodes s with
              | none => Except.error "KeyError"
              | some offline_nodes_for_store =>
                let status_detail :=
                  match t.node_number with
                  | none =>
                    if offline_nodes_for_store.length = 1 then
                      "Node " ++ toString (offline_nodes_for_store.headD 0)
                        ++ " is offline, but couldn" ++ aposStr
                        ++ "t identify specific node from ticket"
                    else
                      "Nodes " ++ String.intercalate " and "
                          ((sortNats offline_nodes_for_store).map toString)
                        ++ " are offline, but couldn" ++ aposStr
                        ++ "t identify specific node from ticket"
                  | some n =>
                    if n ∈ offline_nodes_for_store then
                      "Node " ++ toString n ++ " IS confirmed offline"
                    else if offline_nodes_for_store.length = 1 then
                      "Node " ++ toString n ++ " is NOT offline (Node "
                        ++ toString (offline_nodes_for_store.headD 0) ++ " is offline)"
                    else
                      "Node " ++ toString n ++ " is NOT offline (Nodes "
                        ++ String.intercalate " and "
                            ((sortNats offline_nodes_for_store).map toString)
                        ++ " are offline)"
                Except.ok (create_analysis_result t "needs_review"
                  (base_reason ++ " - requires manual review. Status: " ++ status_detail)
                  store_in_report node_in_report_arg confidence business_flag
                  temporal_analysis days_offline now)
        else if ¬ store_in_report then
          Except.ok
            { ticket := t, status := "can_close",
              reason := "Store not in offline report - no nodes from this store are currently offline",
              store_in_report := false, node_in_report := false,
              confidence := determine_confidence t false false business_flag,
              business_logic_flag := business_flag }
        else
          match dget idx.offline_nodes s with
          | none => Except.error "KeyError"
          | some offline_nodes_for_store =>
            match t.node_number with
            | none =>
              Except.ok (create_analysis_result t "needs_review"
                (format_offline_nodes_message offline_nodes_for_store
                  ("but couldn" ++ aposStr ++ "t identify specific node from description"))
                true false (determine_confidence t true false business_flag)
                business_flag temporal_analysis days_offline now)
            | some n =>
              let node_in_report := offline_nodes_for_store.contains n
              let confidence := determine_confidence t store_in_report node_in_report business_flag
              if node_in_report then
                Except.ok (create_analysis_result t "needs_review"
                  ("Node " ++ toString n ++ " is confirmed offline in the report")
                  true true confidence business_flag temporal_analysis days_offline now)
              else
                Except.ok
                  { ticket := t, status := "can_close",
                    reason := "Node " ++ toString n
                      ++ " is not in offline report. Offline nodes for store: "
                      ++ pyShowNatList (sortNats offline_nodes_for_store),
                    store_in_report := true, node_in_report := false,
                    confidence := confidence, business_logic_flag := business_flag }

/-- `analyze_closed_ticket(ticket)`: the closed-ticket entry point. -/
def analyze_closed_ticket (idx : NodeIndex) (t : Ticket) (now : Int) :
    Except String AnalysisResult :=
  match t.store_number with
  | none =>
    Except.ok (create_analysis_result t "error"
      "Could not extract store number from site field"
      false false "low" "" "" none now)
  | some s =>
    match analyze_temporal_correlation idx t now with
    | Except.error e => Except.error e
    | Except.ok (temporal_analysis, days_offline, _has_timeline_issue) =>
      match dget idx.offline_nodes s with
      | none =>
        Except.ok (create_analysis_result t "closed_ok"
          "Store not in offline report - all nodes are online, ticket correctly closed"
          false false "high" "" temporal_analysis days_offline now)
      | some offline_nodes_for_store =>
        if s ∈ idx.saf_stores then
          Except.ok (create_analysis_result t "suggest_reopen"
            ("CRITICAL: Store has SAF (Store and Forward) failure - ticket should be REOPENED IMMEDIATELY. "
              ++ format_offline_nodes_message offline_nodes_for_store "")
            true true "high" "critical_saf" temporal_analysis days_offline now)
        else if s ∈ idx.both_nodes_offline_stores then
          Except.ok (create_analysis_result t "suggest_reopen"
            ("CRITICAL: Store has BOTH nodes offline - ticket should be REOPENED IMMEDIATELY. "
              ++ format_offline_nodes_message offline_nodes_for_store "")
            true true "high" "critical_both_nodes_offline" temporal_analysis days_offline now)
        else
          match t.node_number with
          | none =>
            Except.ok (create_analysis_result t "suggest_reopen"
              (format_offline_nodes_message offline_nodes_for_store
                ("but couldn" ++ aposStr
                  ++ "t identify specific node from ticket description - SUGGEST REVIEW FOR REOPEN"))
              true false "medium" "" temporal_analysis days_offline now)
          | some n =>
            if n ∈ offline_nodes_for_store then
              Except.ok (create_analysis_result t "suggest_reopen"
                ("Node " ++ toString n ++ " is confirmed offline - ticket should be REOPENED")
                true true "high" "" temporal_analysis days_offline now)
            else
              Except.ok (create_analysis_result t "closed_ok"
                ("Node " ++ toString n ++ " is online (correctly closed). Other "
                  ++ String.mk (pyLower (format_offline_nodes_message offline_nodes_for_store "").data))
                true false "high" "" temporal_analysis days_offline now)

/-- `analyze_all_tickets()`: open tickets through `analyze_ticket`, closed
tickets through `analyze_closed_ticket`, results in that order. -/
def analyze_all_tickets (idx : NodeIndex) (tickets : List Ticket) (now : Int) :
    Except String (List AnalysisResult) :=
  let open_tickets := tickets.filter (fun t => !t.is_closed)
  let closed_tickets := tickets.filter (fun t => t.is_closed)
  match open_tickets.mapM (fun t => analyze_ticket idx t now) with
  | Except.error e => Except.error e
  | Except.ok rs =>
    match closed_tickets.mapM (fun t => analyze_closed_ticket idx t now) with
    | Except.error e => Except.error e
    | Except.ok rs2 => Except.ok (rs ++ rs2)

/-! ### Report parsing (`load_offline_nodes`)

The node-down regexes are matched bespoke (their classes and literals are
disjoint at every repetition boundary except `\s+(.+)`, which gets the
regex backtracking treatment in `matchWsDotTail`).  `findall` scans
left to right, resuming after each match. -/

def stripLit (l : List Char) (cs : List Char) : Option (List Char) :=
  if l.isPrefixOf cs then some (cs.drop l.length) else none

def stripWsPlus (cs : List Char) : Option (List Char) :=
  let (run, rest) := takeRun isPySpace cs
  if run = [] then none else some rest

def stripDigitsPlus (cs : List Char) : Option (List Char × List Char) :=
  let (run, rest) := takeRun Char.isDigit cs
  if run = [] then none else some (run, rest)

/-- Choose the greedy-with-backtracking length of the `\s+` in a trailing
`\s+(.+)`: the largest length `l` (at most the whitespace run, at least 1)
such that the character at index `l` exists and is not a newline. -/
def chooseWsLen (cs : List Char) : Nat → Option Nat
  | 0 => none
  | n + 1 =>
    match cs.get? (n + 1) with
    | some c => if c = '\n' then chooseWsLen cs n else some (n + 1)
    | none => chooseWsLen cs n

/-- Match a trailing `\s+(.+)`; returns (capture, rest after the match). -/
def matchWsDotTail (cs : List Char) : Option (List Char × List Char) :=
  let run := cs.takeWhile isPySpace
  match chooseWsLen cs run.length with
  | none => none
  | some l =>
    let after := cs.drop l
    let cap := after.takeWhile (fun c => c ≠ '\n')
    some (cap, after.drop cap.length)

/-- Anchored match of `NODE\s+(esp\d+-l0([12]))\s+OFFLINE\.\s+Last seen:\s+(.+)`:
returns ((esp digit run, node digit, last-seen capture), rest). -/
def matchRichAt (cs : List Char) : Option ((List Char × Char × List Char) × List Char) :=
  (stripLit ['N','O','D','E'] cs).bind fun r1 =>
  (stripWsPlus r1).bind fun r2 =>
  (stripLit ['e','s','p'] r2).bind fun r3 =>
  (stripDigitsPlus r3).bind fun p4 =>
  (stripLit ['-','l','0'] p4.2).bind fun r5 =>
  match r5 with
  | [] => none
  | c :: r6 =>
    if c = '1' ∨ c = '2' then
      (stripWsPlus r6).bind fun r7 =>
      (stripLit ['O','F','F','L','I','N','E','.'] r7).bind fun r8 =>
      (stripWsPlus r8).bind fun r9 =>
      (stripLit ['L','a','s','t',' ','s','e','e','n',':'] r9).bind fun r10 =>
      (matchWsDotTail r10).map fun pc => ((p4.1, c, pc.1), pc.2)
    else none

def findallRichAux : Nat → List Char → List (List Char × Char × List Char)
  | 0, _ => []
  | _ + 1, [] => []
  | fuel + 1, c :: cs =>
    match matchRichAt (c :: cs) with
    | some (m, rest) => m :: findallRichAux fuel rest
    | none => findallRichAux fuel cs

/-- `re.findall` of the rich node pattern over a section. -/
def findallRich (cs : List Char) : List (List Char × Char × List Char) :=
  findallRichAux cs.length cs

/-- Anchored match of the fallback pattern `esp\d+-l0([12])`. -/
def matchSimpleAt (cs : List Char) : Option (Char × List Char) :=
  (stripLit ['e','s','p'] cs).bind fun r1 =>
  (stripDigitsPlus r1).bind fun p2 =>
  (stripLit ['-','l','0'] p2.2).bind fun r3 =>
  match r3 with
  | [] => none
  | c :: r4 => if c = '1' ∨ c = '2' then some (c, r4) else none

def findallSimpleAux : Nat → List Char → List Char
  | 0, _ => []
  | _ + 1, [] => []
  | fuel + 1, c :: cs =>
    match matchSimpleAt (c :: cs) with
    | some (m, rest) => m :: findallSimpleAux fuel rest
    | none => findallSimpleAux fuel cs

/-- `re.findall` of the fallback pattern, returning the `[12]` captures. -/
def findallSimple (cs : List Char) : List Char :=
  findallSimpleAux cs.length cs

/-- Anchored match of the section header `Store #(\d+)` (the `^` anchor is
handled by the caller, which only tries this at line starts). -/
def matchStoreHeader (cs : List Char) : Option (Nat × List Char) :=
  (stripLit ['S','t','o','r','e',' ','#'] cs).bind fun r1 =>
  (stripDigitsPlus r1).map fun p => (natOfDigits p.1, p.2)

def splitAux : Nat → Bool → List Char → List Char × List (Nat × List Char)
  | 0, _, cs => (cs, [])
  | fuel + 1, atStart, cs =>
    match (if atStart then matchStoreHeader cs else none) with
    | some (num, rest) =>
      let (sec, more) := splitAux fuel false rest
      ([], (num, sec) :: more)
    | none =>
      match cs with
      | [] => ([], [])
      | c :: cs2 =>
        let (chunk, secs) := splitAux fuel (c = '\n') cs2
        (c :: chunk, secs)

/-- `re.split(r'^Store #(\d+)', content, flags=re.MULTILINE)`, as the
leading chunk plus the list of (store number, section content) pairs. -/
def splitStoreSections (cs : List Char) : List Char × List (Nat × List Char) :=
  splitAux (cs.length + 1) true cs

def safMarker : List Char := ['!','!','!',' ','S','A','F',' ','!','!','!']

/-- The body of the loop over the rich node matches of a section: add the
node to the store's coarse set and store the detail record. -/
def addRichMatch (store_number : Nat) (st : NodeIndex) (m : List Char × Char × List Char) :
    NodeIndex :=
  let node_number := natOfDigits [m.2.1]
  let esp_id := String.mk (['e','s','p'] ++ m.1 ++ ['-','l','0'] ++ [m.2.1])
  let ns := setAdd ((dget st.offline_nodes store_number).getD []) node_number
  let st2 := { st with offline_nodes := dset st.offline_nodes store_number ns }
  let detail : OfflineNode :=
    { store_number := store_number, node_number := node_number,
      esp_id := esp_id, last_seen := String.mk (pyStrip m.2.2) }
  let nd := dset st2.offline_nodes_detailed (store_number, node_number) detail
  { st2 with offline_nodes_detailed := nd }

/-- The body of the loop over the fallback matches: coarse entry only. -/
def addSimpleMatch (store_number : Nat) (st : NodeIndex) (c : Char) : NodeIndex :=
  let node_number := natOfDigits [c]
  let ns := setAdd ((dget st.offline_nodes store_number).getD []) node_number
  { st with offline_nodes := dset st.offline_nodes store_number ns }

/-- The per-section body of the `load_offline_nodes` loop.  (The source
wraps it in `try/except ValueError`, but `int()` on the `(\d+)` capture
cannot fail, so the handler is dead.) -/
def processSection (st : NodeIndex) (store_number : Nat) (section_content : List Char) :
    NodeIndex :=
  let st :=
    if isSubstring safMarker section_content then
      { st with saf_stores := setAdd st.saf_stores store_number }
    else st
  let node_matches := findallRich section_content
  let st :=
    if dget st.offline_nodes store_number = none then
      { st with offline_nodes := dset st.offline_nodes store_number [] }
    else st
  let st := node_matches.foldl (addRichMatch store_number) st
  let st :=
    if node_matches = [] then
      (findallSimple section_content).foldl (addSimpleMatch store_number) st
    else st
  if 2 ≤ ((dget st.offline_nodes store_number).getD []).length then
    { st with both_nodes_offline_stores := setAdd st.both_nodes_offline_stores store_number }
  else st

/-- `load_offline_nodes(report_file)` on the report text, from a fresh
index (one load per run): `none` models the raised `ValueError` for an
empty report or one with no recognizable store sections. -/
def loadOfflineNodes (content : String) : Option NodeIndex :=
  if pyStrip content.data = [] then none
  else
    let secs := (splitStoreSections content.data).2
    if secs = [] then none
    else some (secs.foldl (fun st p => processSection st p.1 p.2) {})

/-! ### Missing-ticket detector -/

/-- One advisory dict produced by `get_missing_tickets`. -/
structure MissingTicket where
  store_number : Nat
  site : String
  node_number : Nat
  priority : String
  urgency : String
  offline_nodes : List Nat
  is_saf : Bool
  is_both_offline : Bool
  suggested_description : String
  reason : String
deriving Repr, DecidableEq

/-- The loop body of `get_missing_tickets` for one (store, offline-set)
entry of the coarse map. -/
def missingForStore (idx : NodeIndex) (stores_with_tickets : List Nat)
    (p : Nat × List Nat) : List MissingTicket :=
  let store_number := p.1
  let offline_nodes := p.2
  if store_number ∈ stores_with_tickets then []
  else
    let is_saf := idx.saf_stores.contains store_number
    let is_both_offline := idx.both_nodes_offline_stores.contains store_number
    let pu :=
      if is_saf then ("CRITICAL - SAF", "Immediate")
      else if is_both_offline then ("CRITICAL - Both Nodes", "Immediate")
      else if 1 < offline_nodes.length then ("High", "High")
      else ("Medium", "Medium")
    (sortNats offline_nodes).map (fun node_number =>
      { store_number := store_number,
        site := "Wendy" ++ aposStr ++ "s #" ++ toString store_number,
        node_number := node_number,
        priority := pu.1, urgency := pu.2,
        offline_nodes := sortNats offline_nodes,
        is_saf := is_saf, is_both_offline := is_both_offline,
        suggested_description := "HW-BOH-P2P-ESP Node " ++ toString node_number ++ "-Offline",
        reason := "Node " ++ toString node_number
          ++ " offline - no existing ticket found" })

/-- `get_missing_tickets()`: advisories for stores in the index that have
no ticket, one per offline node, in dict iteration order. -/
def get_missing_tickets (idx : NodeIndex) (stores_with_tickets : List Nat) :
    List MissingTicket :=
  (idx.offline_nodes.map (missingForStore idx stores_with_tickets)).flatten

/-! ### Shared classifier facts -/

theorem detect_cases (s d : String) :
    detect_business_logic_flags s d = (false, "") ∨
    detect_business_logic_flags s d = (true, "do_not_close") ∨
    detect_business_logic_flags s d = (true, "workflow_status") ∨
    detect_business_logic_flags s d = (true, "special_instructions") := by
  unfold detect_business_logic_flags
  dsimp only
  split_ifs <;> simp

def isCatalogFlag (f : String) : Bool :=
  f = "do_not_close" || f = "workflow_status" || f = "special_instructions"

theorem closed_no_catalog (idx : NodeIndex) (t : Ticket) (now : Int) (r : AnalysisResult)
    (h : analyze_closed_ticket idx t now = Except.ok r) :
    isCatalogFlag r.business_logic_flag = false := by
  unfold analyze_closed_ticket at h
  split at h
  · cases h
    rfl
  · split at h
    · cases h
    · split at h
      · cases h
        rfl
      · split at h
        · cases h
          rfl
        · split at h
          · cases h
            rfl
          · split at h
            · cases h
              rfl
            · split at h
              · cases h
                rfl
              · cases h
                rfl

set_option maxHeartbeats 3000000 in
theorem analyze_ticket_facts (idx : NodeIndex) (t : Ticket) (now : Int) (r : AnalysisResult)
    (h : analyze_ticket idx t now = Except.ok r) :
    (r.status = "can_close" ∨ r.status = "needs_review" ∨ r.status = "error" ∨
      r.status = "closed_too_old") ∧
    (r.status = "can_close" → r.reopenable = false ∧
      (isCatalogFlag r.business_logic_flag = true →
        r.business_logic_flag = "workflow_status" ∧ r.confidence = "high")) ∧
    (r.status = "needs_review" →
      r.reopenable = (if t.is_closed then t.is_reopenable 7 now else true) ∧
      (isCatalogFlag r.business_logic_flag = true → r.confidence = "low")) ∧
    (r.status = "error" →
      (isCatalogFlag r.business_logic_flag = true → r.confidence = "low")) ∧
    (r.status = "closed_too_old" → t.is_closed = true) := by
  unfold analyze_ticket at h
  obtain hdet | hdet | hdet | hdet := detect_cases t.site t.description <;>
    rw [hdet] at h <;> dsimp only at h
  -- no business flag
  · repeat' split at h
    all_goals (try cases h)
    all_goals simp_all [create_analysis_result, determine_confidence, isCatalogFlag]
  -- do_not_close
  · repeat' split at h
    all_goals (try cases h)
    all_goals simp_all [create_analysis_result, determine_confidence, isCatalogFlag]
  -- workflow_status
  · cases htemp : analyze_temporal_correlation idx t now with
    | error e =>
      rw [htemp] at h
      cases h
    | ok trip =>
      obtain ⟨ta, dof, ti⟩ := trip
      rw [htemp] at h
      dsimp only at h
      by_cases hage : (t.is_closed ∧ ¬ t.is_reopenable 7 now : Prop)
      · rw [if_pos hage] at h
        cases h
        simp_all [create_analysis_result, isCatalogFlag]
      · rw [if_neg hage] at h
        rcases hstore : t.store_number with _ | s <;> rw [hstore] at h <;> dsimp only at h
        · cases h
          simp_all [create_analysis_result, determine_confidence, isCatalogFlag]
        · by_cases hsaf : s ∈ idx.saf_stores
          · rw [if_pos hsaf] at h
            cases h
            simp_all [create_analysis_result, isCatalogFlag]
          · rw [if_neg hsaf] at h
            by_cases hboth : s ∈ idx.both_nodes_offline_stores
            · rw [if_pos hboth] at h
              rcases hlk : dget idx.offline_nodes s with _ | l <;> rw [hlk] at h
              · cases h
              · cases h
                simp_all [create_analysis_result, isCatalogFlag]
            · rw [if_neg hboth] at h
              rcases hlk : dget idx.offline_nodes s with _ | l <;> rw [hlk] at h <;>
                dsimp only at h
              · simp only [reduceCtorEq, reduceIte] at h
                cases h
                simp_all [create_analysis_result, determine_confidence, isCatalogFlag, hstore]
              · simp only [reduceCtorEq, reduceIte] at h
                rcases hnode : t.node_number with _ | n <;> rw [hnode] at h <;>
                  dsimp only at h
                · simp only [Bool.not_true, Bool.false_eq_true, if_false] at h
                  repeat' split at h
                  all_goals (try cases h)
                  all_goals simp_all [create_analysis_result, determine_confidence, isCatalogFlag]
                · by_cases hmem : n ∈ l
                  · simp [hmem] at h
                    all_goals (try cases h)
                    all_goals simp_all [create_analysis_result, determine_confidence, isCatalogFlag]
                  · simp [hmem] at h
                    subst h
                    simp_all [create_analysis_result, determine_confidence, isCatalogFlag,
                      hlk, hnode, hstore]
  -- special_instructions
  · repeat' split at h
    all_goals (try cases h)
    all_goals simp_all [create_analysis_result, determine_confidence, isCatalogFlag]

/-! ### Claim C6: node-number extraction -/

theorem scanNodePatterns_range (ps : List (List PatAtom)) (d : List Char)
    (r : Option Nat) (h : scanNodePatterns ps d = some r) :
    ∀ n, r = some n → n = 1 ∨ n = 2 := by
  induction ps with
  | nil => simp [scanNodePatterns] at h
  | cons p ps ih =>
    rw [scanNodePatterns] at h
    cases hs : searchNat p d with
    | some m =>
      rw [hs] at h
      intro n hn
      by_cases hm : m = 1 ∨ m = 2
      · simp [hm] at h
        rw [← h] at hn
        cases hn
        exact hm
      · simp [hm] at h
        rw [← h] at hn
        cases hn
    | none =>
      rw [hs] at h
      exact ih h

theorem scanNodePatterns_first (ps1 : List (List PatAtom)) (p : List PatAtom)
    (ps2 : List (List PatAtom)) (d : List Char) (n : Nat)
    (hnone : ∀ q ∈ ps1, searchNat q d = none)
    (hp : searchNat p d = some n) :
    scanNodePatterns (ps1 ++ p :: ps2) d = some (if n = 1 ∨ n = 2 then some n else none) := by
  induction ps1 with
  | nil => simp [scanNodePatterns, hp]
  | cons q qs ih =>
    have hq : searchNat q d = none := hnone q (by simp)
    rw [List.cons_append, scanNodePatterns, hq]
    exact ih (fun q2 hq2 => hnone q2 (by simp [hq2]))

/-- C6: for every description, `extract_node_number` returns 1, 2 or absent,
never another integer; and the first pattern of the ordered catalog whose
search matches decides the outcome — its captured integer when that is
exactly 1 or 2, otherwise absent with the scan stopped there (later
patterns are never consulted). -/
theorem C6_extract_node_range_first_match :
    (∀ d n, extract_node_number d = some n → n = 1 ∨ n = 2) ∧
    (∀ (d : String) ps1 p ps2 n, nodePatterns = ps1 ++ p :: ps2 →
      (∀ q ∈ ps1, searchNat q (pyUpper d.data) = none) →
      searchNat p (pyUpper d.data) = some n →
      extract_node_number d = if n = 1 ∨ n = 2 then some n else none) := by
  constructor
  · intro d n h
    rw [extract_node_number] at h
    cases hscan : scanNodePatterns nodePatterns (pyUpper d.data) with
    | some r =>
      rw [hscan] at h
      exact scanNodePatterns_range nodePatterns (pyUpper d.data) r hscan n h
    | none =>
      rw [hscan] at h
      by_cases hsub : isSubstring ['N','O','D','E','S'] (pyUpper d.data)
          && isSubstring ['N','O','D','E'] (pyUpper d.data)
      · simp [hsub] at h
      · simp [hsub] at h
  · intro d ps1 p ps2 n hsplit hnone hp
    rw [extract_node_number, hsplit,
      scanNodePatterns_first ps1 p ps2 (pyUpper d.data) n hnone hp]

/-- C6 witness: the first catalog pattern matches `NODE 5` capturing 5, so
the extraction yields absent even though `NODE 1` occurs later. -/
theorem C6_extract_node_range_first_match_witness :
    extract_node_number "NODE 5 THEN NODE 1" = none := by
  have h := C6_extract_node_range_first_match.2 "NODE 5 THEN NODE 1"
    [] (nodePatterns.headD []) nodePatterns.tail 5 rfl
    (by intro q hq; simp at hq) rfl
  simpa using h

/-! ### Claim C2: business flags and confidence -/

/-- Fallback record used when extracting the `ok` payload of a result. -/
def dummyResult : AnalysisResult :=
  { ticket := { site := "", number := "", description := "", priority := "",
                created := "", updated := "" },
    status := "", reason := "" }

/-- Extract the payload of a successful classification. -/
def okPayload (x : Except String AnalysisResult) : AnalysisResult :=
  match x with
  | Except.ok r => r
  | Except.error _ => dummyResult

def c2Idx : NodeIndex := { offline_nodes := [(7, [1])] }

/-- An open ticket with a workflow marker (`WO123`) whose store 42 is
absent from the offline index. -/
def c2Ticket : Ticket :=
  { site := "store forty-two", number := "T2", description := "WO123 NODE 1 offline",
    priority := "P3", created := "2025-07-01 00:00:00", updated := "2025-07-02 00:00:00",
    store_number := some 42, node_number := some 1 }

def c2Now : Int := 1752969600

/-- C2 counterexample: the pipeline classifies this workflow-status ticket
`can_close` carrying catalog flag `workflow_status` with confidence `high`,
so a non-empty business flag does not force confidence `low`. -/
theorem C2_counterexample_workflow_high :
    (analyze_all_tickets c2Idx [c2Ticket] c2Now).map
        (fun rs => rs.map (fun r => (r.business_logic_flag, r.confidence, r.status)))
      = Except.ok [("workflow_status", "high", "can_close")] := rfl

/-- C2 (amended): a classification result carrying a catalog business flag
(do_not_close, workflow_status, special_instructions) has confidence `low`,
except for the two workflow-status relief branches of `analyze_ticket` that
return `can_close` with the flag still set and confidence computed as if no
flag were present (`high`); the closed-ticket path never emits a catalog
flag at all. -/
theorem C2_amended_catalog_flag_confidence :
    (∀ idx t now r, t.is_closed = false →
        analyze_ticket idx t now = Except.ok r →
        isCatalogFlag r.business_logic_flag = true →
        (r.status ≠ "can_close" → r.confidence = "low") ∧
        (r.status = "can_close" →
          r.business_logic_flag = "workflow_status" ∧ r.confidence = "high")) ∧
    (∀ idx t now r, analyze_closed_ticket idx t now = Except.ok r →
        isCatalogFlag r.business_logic_flag = false) := by
  constructor
  · intro idx t now r hopen h hcat
    obtain ⟨hst, hcc, hnr, herr, hold⟩ := analyze_ticket_facts idx t now r h
    constructor
    · intro hs
      obtain h1 | h2 | h3 | h4 := hst
      · exact absurd h1 hs
      · exact (hnr h2).2 hcat
      · exact herr h3 hcat
      · rw [hold h4] at hopen
        cases hopen
    · intro hs
      exact (hcc hs).2 hcat
  · intro idx t now r h
    exact closed_no_catalog idx t now r h

def c2wIdx : NodeIndex := { offline_nodes := [(7, [2])] }

/-- An open ticket with explicit do-not-close instructions, store 7 in the
index with node 2 offline, ticket node 1. -/
def c2wTicket : Ticket :=
  { site := "store seven", number := "T2w",
    description := "DO NOT CLOSE until tech arrives NODE 1",
    priority := "P3", created := "2025-07-01 00:00:00", updated := "2025-07-02 00:00:00",
    store_number := some 7, node_number := some 1 }

def c2wRes : AnalysisResult := okPayload (analyze_ticket c2wIdx c2wTicket c2Now)

/-- C2 witness: the amended theorem applied at a concrete do-not-close
ticket yields confidence `low` for its `needs_review` result. -/
theorem C2_amended_catalog_flag_confidence_witness :
    c2wRes.confidence = "low" ∧ c2wRes.status = "needs_review" := by
  have h : analyze_ticket c2wIdx c2wTicket c2Now = Except.ok c2wRes := rfl
  refine ⟨(C2_amended_catalog_flag_confidence.1 c2wIdx c2wTicket c2Now c2wRes rfl h rfl).1
    ?_, rfl⟩
  intro hs
  rw [show c2wRes.status = "needs_review" from rfl] at hs
  simp at hs

/-! ### Claim C3: temporal correlation and unparseable dates -/

/-- Store 7 has both nodes offline with detail records; node 2's last-seen
timestamp is unparseable, so its `days_offline()` is absent. -/
def c3Idx : NodeIndex :=
  { offline_nodes := [(7, [1, 2])],
    offline_nodes_detailed :=
      [((7, 1), { store_number := 7, node_number := 1, esp_id := "esp22-l01",
                  last_seen := "2025-07-05 00:00:00" }),
       ((7, 2), { store_number := 7, node_number := 2, esp_id := "esp23-l02",
                  last_seen := "pending verification" })],
    both_nodes_offline_stores := [7] }

def c3Ticket : Ticket :=
  { site := "store seven", number := "T3", description := "store link down",
    priority := "P3", created := "2025-07-01 00:00:00", updated := "2025-07-02 00:00:00",
    store_number := some 7, node_number := none }

def c3Now : Int := 1752969600

/-- C3 (code bug, evaluated at the failing input): the unparseable
last-seen date does yield an absent `days_offline`, but
`analyze_temporal_correlation` then raises `TypeError` from
`max(..., key=lambda x: x.days_offline())` instead of returning a triple,
and the exception propagates out of both classifier entry points. -/
theorem C3_temporal_raises_on_unparseable :
    (OfflineNode.days_offline
        { store_number := 7, node_number := 2, esp_id := "esp23-l02",
          last_seen := "pending verification" } c3Now = none) ∧
    analyze_temporal_correlation c3Idx c3Ticket c3Now =
      Except.error "TypeError: NoneType and int comparison" ∧
    analyze_ticket c3Idx c3Ticket c3Now =
      Except.error "TypeError: NoneType and int comparison" := by
  exact ⟨rfl, rfl, rfl⟩

/-! ### Claim C1: closed tickets and the closure-age rule -/

/-- Store 7 with node 1 offline (with a parseable detail record). -/
def c1Idx : NodeIndex :=
  { offline_nodes := [(7, [1])],
    offline_nodes_detailed :=
      [((7, 1), { store_number := 7, node_number := 1, esp_id := "esp22-l01",
                  last_seen := "2025-07-05 00:00:00" })] }

/-- Closed ticket, resolved 10 days before `c1Now`, naming node 1. -/
def c1Ticket : Ticket :=
  { site := "store seven", number := "T1", description := "NODE 1 offline",
    priority := "P3", created := "2025-07-01 00:00:00", updated := "2025-07-02 00:00:00",
    resolved := some "2025-07-10 00:00:00",
    store_number := some 7, node_number := some 1 }

/-- 2025-07-20 00:00:00 as epoch seconds. -/
def c1Now : Int := 1752969600

/-- C1 counterexample: for this closed ticket resolved 10 days in the past
whose store has an offline node matching the ticket's node, the pipeline
(`analyze_all_tickets`) yields `suggest_reopen`, not `closed_too_old`. -/
theorem C1_counterexample_pipeline_reopens :
    (analyze_all_tickets c1Idx [c1Ticket] c1Now).map (fun rs => rs.map (fun r => r.status))
      = Except.ok ["suggest_reopen"] ∧
    c1Ticket.is_closed = true ∧ c1Ticket.is_reopenable 7 c1Now = false := by
  exact ⟨rfl, rfl, rfl⟩

/-- C1 (amended): `analyze_all_tickets` dispatches closed tickets to
`analyze_closed_ticket`, which has no closure-age rule — a closed ticket of
any age whose store has an offline node matching its node number is
suggested for reopening; `closed_too_old` is produced only by
`analyze_ticket` (the open-path entry point), which checks closure age
before store/node logic. -/
theorem C1_amended_closed_dispatch :
    (∀ idx t now, t.is_closed = true →
      analyze_all_tickets idx [t] now =
        (analyze_closed_ticket idx t now).map (fun r => [r])) ∧
    (∀ idx t now s l n r, t.store_number = some s →
      dget idx.offline_nodes s = some l → t.node_number = some n → n ∈ l →
      analyze_closed_ticket idx t now = Except.ok r → r.status = "suggest_reopen") ∧
    (∀ idx t now r, t.is_closed = true → t.is_reopenable 7 now = false →
      analyze_ticket idx t now = Except.ok r → r.status = "closed_too_old") := by
  refine ⟨?_, ?_, ?_⟩
  · intro idx t now hclosed
    unfold analyze_all_tickets
    rw [show List.filter (fun t => !t.is_closed) [t] = [] by simp [hclosed],
        show List.filter (fun t => t.is_closed) [t] = [t] by simp [hclosed]]
    cases hc : analyze_closed_ticket idx t now <;>
      simp [List.mapM, List.mapM.loop, hc, Except.map, pure, Except.pure, bind, Except.bind]
  · intro idx t now s l n r hstore hlk hnode hmem h
    unfold analyze_closed_ticket at h
    rw [hstore] at h
    dsimp only at h
    cases htemp : analyze_temporal_correlation idx t now with
    | error e => rw [htemp] at h; cases h
    | ok trip =>
      obtain ⟨ta, dof, ti⟩ := trip
      rw [htemp] at h
      dsimp only at h
      rw [hlk] at h
      dsimp only at h
      by_cases hsaf : s ∈ idx.saf_stores
      · rw [if_pos hsaf] at h
        cases h
        rfl
      · rw [if_neg hsaf] at h
        by_cases hboth : s ∈ idx.both_nodes_offline_stores
        · rw [if_pos hboth] at h
          cases h
          rfl
        · rw [if_neg hboth] at h
          rw [hnode] at h
          dsimp only at h
          rw [if_pos hmem] at h
          cases h
          rfl
  · intro idx t now r hclosed hnotre h
    unfold analyze_ticket at h
    cases htemp : analyze_temporal_correlation idx t now with
    | error e => rw [htemp] at h; cases h
    | ok trip =>
      obtain ⟨ta, dof, ti⟩ := trip
      rw [htemp] at h
      dsimp only at h
      rw [if_pos (by simp [hclosed, hnotre])] at h
      cases h
      rfl

def c1Res : AnalysisResult := okPayload (analyze_closed_ticket c1Idx c1Ticket c1Now)

def c1OpenRes : AnalysisResult := okPayload (analyze_ticket c1Idx c1Ticket c1Now)

/-- C1 witness: the amended theorem applied at the concrete fixture — the
closed path suggests reopening, while the same ticket pushed through the
open-path entry point is `closed_too_old`. -/
theorem C1_amended_closed_dispatch_witness :
    c1Res.status = "suggest_reopen" ∧ c1OpenRes.status = "closed_too_old" := by
  constructor
  · exact C1_amended_closed_dispatch.2.1 c1Idx c1Ticket c1Now 7 [1] 1 c1Res
      rfl rfl rfl (by decide) rfl
  · exact C1_amended_closed_dispatch.2.2 c1Idx c1Ticket c1Now c1OpenRes rfl rfl rfl

/-! ### Claim C10: reopenable defaults -/

/-- C10: every `can_close` result of `analyze_ticket` has
`reopenable = false` (those branches construct the dataclass directly and
leave the field at its default), even though the ticket is open, while any
open ticket routed through `create_analysis_result` (as every
`needs_review` result is) gets `reopenable = true`. -/
theorem C10_can_close_reopenable_default :
    (∀ idx t now r, analyze_ticket idx t now = Except.ok r →
        r.status = "can_close" → r.reopenable = false) ∧
    (∀ idx t now r, t.is_closed = false → analyze_ticket idx t now = Except.ok r →
        r.status = "needs_review" → r.reopenable = true) ∧
    (∀ t status reason sir nir conf flag ta dof now, t.is_closed = false →
        (create_analysis_result t status reason sir nir conf flag ta dof now).reopenable
          = true) := by
  refine ⟨?_, ?_, ?_⟩
  · intro idx t now r h hs
    exact ((analyze_ticket_facts idx t now r h).2.1 hs).1
  · intro idx t now r hopen h hs
    have hre := ((analyze_ticket_facts idx t now r h).2.2.1 hs).1
    rw [hre, hopen]
    simp
  · intro t status reason sir nir conf flag ta dof now hopen
    unfold create_analysis_result
    simp [hopen]

def c10Idx : NodeIndex := { offline_nodes := [(7, [1])] }

/-- Open ticket naming node 2, which is not offline at store 7. -/
def c10CloseT : Ticket :=
  { site := "store seven", number := "T10a", description := "NODE 2 down",
    priority := "P3", created := "2025-07-01 00:00:00", updated := "2025-07-02 00:00:00",
    store_number := some 7, node_number := some 2 }

/-- Open ticket naming node 1, which is offline at store 7. -/
def c10ReviewT : Ticket :=
  { site := "store seven", number := "T10b", description := "NODE 1 down",
    priority := "P3", created := "2025-07-01 00:00:00", updated := "2025-07-02 00:00:00",
    store_number := some 7, node_number := some 1 }

def c10Now : Int := 1752969600

def c10CloseRes : AnalysisResult := okPayload (analyze_ticket c10Idx c10CloseT c10Now)

def c10ReviewRes : AnalysisResult := okPayload (analyze_ticket c10Idx c10ReviewT c10Now)

/-- C10 witness: concrete open tickets — the `can_close` result has
`reopenable = false`, the `needs_review` one has `reopenable = true`. -/
theorem C10_can_close_reopenable_default_witness :
    c10CloseRes.reopenable = false ∧ c10ReviewRes.reopenable = true := by
  constructor
  · exact C10_can_close_reopenable_default.1 c10Idx c10CloseT c10Now c10CloseRes rfl rfl
  · exact C10_can_close_reopenable_default.2.1 c10Idx c10ReviewT c10Now c10ReviewRes
      rfl rfl rfl

/-! ### Claim C5: literal set-membership dispositions -/

/-- C5: with no short-circuit applicable (no business flag, store not
SAF-flagged, store not both-nodes-offline, ticket not past the closure-age
window) and a resolved node number in {1,2} for a store present in the
index, the open path follows literal membership of the node in the store's
offline set (`needs_review` vs `can_close`) and the closed path likewise
(`suggest_reopen` vs `closed_ok`). -/
theorem C5_membership_dispositions :
    (∀ idx t now s l n r,
      detect_business_logic_flags t.site t.description = (false, "") →
      t.is_closed = false →
      t.store_number = some s → dget idx.offline_nodes s = some l →
      s ∉ idx.saf_stores → s ∉ idx.both_nodes_offline_stores →
      t.node_number = some n → (n = 1 ∨ n = 2) →
      analyze_ticket idx t now = Except.ok r →
      r.status = (if n ∈ l then "needs_review" else "can_close")) ∧
    (∀ idx t now s l n r,
      detect_business_logic_flags t.site t.description = (false, "") →
      t.is_closed = true →
      t.store_number = some s → dget idx.offline_nodes s = some l →
      s ∉ idx.saf_stores → s ∉ idx.both_nodes_offline_stores →
      t.node_number = some n → (n = 1 ∨ n = 2) →
      analyze_closed_ticket idx t now = Except.ok r →
      r.status = (if n ∈ l then "suggest_reopen" else "closed_ok")) := by
  constructor
  · intro idx t now s l n r hdet hopen hstore hlk hsaf hboth hnode _hn12 h
    unfold analyze_ticket at h
    rw [hdet] at h
    dsimp only at h
    cases htemp : analyze_temporal_correlation idx t now with
    | error e => rw [htemp] at h; cases h
    | ok trip =>
      obtain ⟨ta, dof, ti⟩ := trip
      rw [htemp] at h
      dsimp only at h
      rw [hopen] at h
      rw [hstore] at h
      dsimp only at h
      rw [if_neg hsaf, if_neg hboth] at h
      simp only [Bool.false_eq_true, if_false, hlk] at h
      rw [hnode] at h
      dsimp only at h
      by_cases hmem : n ∈ l
      · simp only [hmem, if_true] at h ⊢
        simp [hmem] at h
        cases h
        rfl
      · simp only [hmem, if_false] at h ⊢
        simp [hmem] at h
        rw [← h]
  · intro idx t now s l n r hdet hclosed hstore hlk hsaf hboth hnode _hn12 h
    unfold analyze_closed_ticket at h
    rw [hstore] at h
    dsimp only at h
    cases htemp : analyze_temporal_correlation idx t now with
    | error e => rw [htemp] at h; cases h
    | ok trip =>
      obtain ⟨ta, dof, ti⟩ := trip
      rw [htemp] at h
      dsimp only at h
      rw [hlk] at h
      dsimp only at h
      rw [if_neg hsaf, if_neg hboth, hnode] at h
      dsimp only at h
      by_cases hmem : n ∈ l
      · rw [if_pos hmem] at h
        rw [if_pos hmem]
        cases h
        rfl
      · rw [if_neg hmem] at h
        rw [if_neg hmem]
        cases h
        rfl

def c5Idx : NodeIndex := { offline_nodes := [(7, [1])] }

/-- Closed ticket naming node 1 (offline) at store 7. -/
def c5ClosedT : Ticket :=
  { site := "store seven", number := "T5c", description := "NODE 1 down",
    priority := "P3", created := "2025-07-01 00:00:00", updated := "2025-07-02 00:00:00",
    resolved := some "2025-07-18 00:00:00",
    store_number := some 7, node_number := some 1 }

def c5Now : Int := 1752969600

def c5OpenRes : AnalysisResult := okPayload (analyze_ticket c5Idx c10CloseT c5Now)

def c5ClosedRes : AnalysisResult := okPayload (analyze_closed_ticket c5Idx c5ClosedT c5Now)

/-- C5 witness: node 2 not offline at store 7 → open path `can_close`;
node 1 offline → closed path `suggest_reopen`. -/
theorem C5_membership_dispositions_witness :
    c5OpenRes.status = "can_close" ∧ c5ClosedRes.status = "suggest_reopen" := by
  constructor
  · have h := C5_membership_dispositions.1 c5Idx c10CloseT c5Now 7 [1] 2 c5OpenRes
      rfl rfl rfl rfl (by decide) (by decide) rfl (Or.inr rfl) rfl
    simpa using h
  · have h := C5_membership_dispositions.2 c5Idx c5ClosedT c5Now 7 [1] 1 c5ClosedRes
      rfl rfl rfl rfl (by decide) (by decide) rfl (Or.inl rfl) rfl
    simpa using h

/-! ### Index construction lemmas and Claim C4 -/

theorem dget_dset {κ α : Type} [DecidableEq κ] (d : List (κ × α)) (k k2 : κ) (v : α) :
    dget (dset d k v) k2 = if k2 = k then some v else dget d k2 := by
  induction d with
  | nil => simp [dget, dset]
  | cons p rest ih =>
    obtain ⟨k0, v0⟩ := p
    by_cases h1 : k = k0
    · subst h1
      by_cases h2 : k2 = k <;> simp [dset, dget, h2]
    · by_cases h2 : k2 = k0
      · subst h2
        simp [dset, dget, h1, Ne.symm h1]
      · simp [dset, dget, h1, h2, ih]

theorem mem_setAdd (s : List Nat) (n a : Nat) : a ∈ setAdd s n ↔ a ∈ s ∨ a = n := by
  unfold setAdd
  split_ifs with h
  · exact ⟨Or.inl, fun ha => ha.elim id (fun he => he ▸ h)⟩
  · simp

theorem setAdd_length_ge (s : List Nat) (n : Nat) : s.length ≤ (setAdd s n).length := by
  unfold setAdd
  split_ifs <;> simp

theorem addRich_coarse (k : Nat) (st : NodeIndex) (m : List Char × Char × List Char) (s : Nat) :
    dget (addRichMatch k st m).offline_nodes s =
      if s = k then
        some (setAdd ((dget st.offline_nodes k).getD []) (natOfDigits [m.2.1]))
      else dget st.offline_nodes s := by
  simp [addRichMatch, dget_dset]

theorem addSimple_coarse (k : Nat) (st : NodeIndex) (c : Char) (s : Nat) :
    dget (addSimpleMatch k st c).offline_nodes s =
      if s = k then
        some (setAdd ((dget st.offline_nodes k).getD []) (natOfDigits [c]))
      else dget st.offline_nodes s := by
  simp [addSimpleMatch, dget_dset]

theorem foldRich_coarse_other (k : Nat) (ms : List (List Char × Char × List Char))
    (st : NodeIndex) (s : Nat) (hs : s ≠ k) :
    dget ((ms.foldl (addRichMatch k) st).offline_nodes) s = dget st.offline_nodes s := by
  induction ms generalizing st with
  | nil => rfl
  | cons m ms ih => rw [List.foldl_cons, ih, addRich_coarse, if_neg hs]

theorem foldSimple_coarse_other (k : Nat) (cs : List Char)
    (st : NodeIndex) (s : Nat) (hs : s ≠ k) :
    dget ((cs.foldl (addSimpleMatch k) st).offline_nodes) s = dget st.offline_nodes s := by
  induction cs generalizing st with
  | nil => rfl
  | cons c cs ih => rw [List.foldl_cons, ih, addSimple_coarse, if_neg hs]

theorem foldRich_coarse_self (k : Nat) (ms : List (List Char × Char × List Char))
    (st : NodeIndex) (l : List Nat) (h : dget st.offline_nodes k = some l) :
    dget ((ms.foldl (addRichMatch k) st).offline_nodes) k =
      some (ms.foldl (fun l m => setAdd l (natOfDigits [m.2.1])) l) := by
  induction ms generalizing st l with
  | nil => simpa using h
  | cons m ms ih =>
    rw [List.foldl_cons, List.foldl_cons]
    exact ih _ _ (by rw [addRich_coarse, if_pos rfl, h]; rfl)

theorem foldSimple_coarse_self (k : Nat) (cs : List Char)
    (st : NodeIndex) (l : List Nat) (h : dget st.offline_nodes k = some l) :
    dget ((cs.foldl (addSimpleMatch k) st).offline_nodes) k =
      some (cs.foldl (fun l c => setAdd l (natOfDigits [c])) l) := by
  induction cs generalizing st l with
  | nil => simpa using h
  | cons c cs ih =>
    rw [List.foldl_cons, List.foldl_cons]
    exact ih _ _ (by rw [addSimple_coarse, if_pos rfl, h]; rfl)

theorem foldRich_saf (k : Nat) (ms : List (List Char × Char × List Char)) (st : NodeIndex) :
    (ms.foldl (addRichMatch k) st).saf_stores = st.saf_stores := by
  induction ms generalizing st with
  | nil => rfl
  | cons m ms ih => rw [List.foldl_cons, ih]; rfl

theorem foldSimple_saf (k : Nat) (cs : List Char) (st : NodeIndex) :
    (cs.foldl (addSimpleMatch k) st).saf_stores = st.saf_stores := by
  induction cs generalizing st with
  | nil => rfl
  | cons c cs ih => rw [List.foldl_cons, ih]; rfl

theorem foldRich_both (k : Nat) (ms : List (List Char × Char × List Char)) (st : NodeIndex) :
    (ms.foldl (addRichMatch k) st).both_nodes_offline_stores
      = st.both_nodes_offline_stores := by
  induction ms generalizing st with
  | nil => rfl
  | cons m ms ih => rw [List.foldl_cons, ih]; rfl

theorem foldSimple_both (k : Nat) (cs : List Char) (st : NodeIndex) :
    (cs.foldl (addSimpleMatch k) st).both_nodes_offline_stores
      = st.both_nodes_offline_stores := by
  induction cs generalizing st with
  | nil => rfl
  | cons c cs ih => rw [List.foldl_cons, ih]; rfl

theorem foldl_setAdd_length {β : Type} (f : β → Nat) (bs : List β) (l : List Nat) :
    l.length ≤ (bs.foldl (fun l b => setAdd l (f b)) l).length := by
  induction bs generalizing l with
  | nil => simp
  | cons b bs ih => exact le_trans (setAdd_length_ge l (f b)) (ih _)

theorem ite_coarse (c : Prop) [Decidable c] (a b : NodeIndex) :
    (if c then a else b).offline_nodes = if c then a.offline_nodes else b.offline_nodes := by
  split_ifs <;> rfl

/-- The coarse map entry for the section's own store after processing. -/
theorem processSection_coarse_self (st : NodeIndex) (k : Nat) (sec : List Char) :
    ∃ l, dget (processSection st k sec).offline_nodes k = some l ∧
      ((dget st.offline_nodes k).getD []).length ≤ l.length := by
  unfold processSection
  dsimp only
  set st1 := (if isSubstring safMarker sec = true then
      { st with saf_stores := setAdd st.saf_stores k } else st) with hst1
  have h1 : st1.offline_nodes = st.offline_nodes := by
    rw [hst1]; split_ifs <;> rfl
  simp only [h1]
  set st2 := (if dget st.offline_nodes k = none then
      { st1 with offline_nodes := dset st.offline_nodes k [] } else st1) with hst2
  have h2 : dget st2.offline_nodes k = some ((dget st.offline_nodes k).getD []) := by
    rw [hst2]
    cases hk : dget st.offline_nodes k with
    | none => simp [hk, dget_dset]
    | some l0 => simp [hk, h1]
  by_cases hemp : findallRich sec = []
  · simp only [hemp, List.foldl_nil, ite_self, if_pos]
    have hv := foldSimple_coarse_self k (findallSimple sec) st2 _ h2
    rw [show (if 2 ≤ ((dget (List.foldl (addSimpleMatch k) st2 (findallSimple sec)).offline_nodes
          k).getD []).length then
        { List.foldl (addSimpleMatch k) st2 (findallSimple sec) with
          both_nodes_offline_stores := setAdd (List.foldl (addSimpleMatch k) st2
            (findallSimple sec)).both_nodes_offline_stores k }
        else List.foldl (addSimpleMatch k) st2 (findallSimple sec)).offline_nodes
        = (List.foldl (addSimpleMatch k) st2 (findallSimple sec)).offline_nodes
      by split_ifs <;> rfl]
    exact ⟨_, hv, foldl_setAdd_length _ _ _⟩
  · simp only [hemp, if_neg, if_false]
    have hv := foldRich_coarse_self k (findallRich sec) st2 _ h2
    rw [show (if 2 ≤ ((dget (List.foldl (addRichMatch k) st2 (findallRich sec)).offline_nodes
          k).getD []).length then
        { List.foldl (addRichMatch k) st2 (findallRich sec) with
          both_nodes_offline_stores := setAdd (List.foldl (addRichMatch k) st2
            (findallRich sec)).both_nodes_offline_stores k }
        else List.foldl (addRichMatch k) st2 (findallRich sec)).offline_nodes
        = (List.foldl (addRichMatch k) st2 (findallRich sec)).offline_nodes
      by split_ifs <;> rfl]
    exact ⟨_, hv, foldl_setAdd_length _ _ _⟩

theorem processSection_coarse_other (st : NodeIndex) (k : Nat) (sec : List Char) (s : Nat)
    (hs : s ≠ k) :
    dget (processSection st k sec).offline_nodes s = dget st.offline_nodes s := by
  unfold processSection
  dsimp only
  set st1 := (if isSubstring safMarker sec = true then
      { st with saf_stores := setAdd st.saf_stores k } else st) with hst1
  have h1 : st1.offline_nodes = st.offline_nodes := by
    rw [hst1]; split_ifs <;> rfl
  simp only [h1]
  set st2 := (if dget st.offline_nodes k = none then
      { st1 with offline_nodes := dset st.offline_nodes k [] } else st1) with hst2
  have h2 : dget st2.offline_nodes s = dget st.offline_nodes s := by
    rw [hst2]
    split_ifs with hkk
    · simp [dget_dset, hs]
    · rw [h1]
  by_cases hemp : findallRich sec = []
  · simp only [hemp, List.foldl_nil, ite_self, if_pos]
    rw [show (if 2 ≤ ((dget (List.foldl (addSimpleMatch k) st2 (findallSimple sec)).offline_nodes
          k).getD []).length then
        { List.foldl (addSimpleMatch k) st2 (findallSimple sec) with
          both_nodes_offline_stores := setAdd (List.foldl (addSimpleMatch k) st2
            (findallSimple sec)).both_nodes_offline_stores k }
        else List.foldl (addSimpleMatch k) st2 (findallSimple sec)).offline_nodes
        = (List.foldl (addSimpleMatch k) st2 (findallSimple sec)).offline_nodes
      by split_ifs <;> rfl]
    rw [foldSimple_coarse_other _ _ _ _ hs, h2]
  · simp only [hemp, if_neg, if_false]
    rw [show (if 2 ≤ ((dget (List.foldl (addRichMatch k) st2 (findallRich sec)).offline_nodes
          k).getD []).length then
        { List.foldl (addRichMatch k) st2 (findallRich sec) with
          both_nodes_offline_stores := setAdd (List.foldl (addRichMatch k) st2
            (findallRich sec)).both_nodes_offline_stores k }
        else List.foldl (addRichMatch k) st2 (findallRich sec)).offline_nodes
        = (List.foldl (addRichMatch k) st2 (findallRich sec)).offline_nodes
      by split_ifs <;> rfl]
    rw [foldRich_coarse_other _ _ _ _ hs, h2]

/-- SAF membership after a section: only the section's store may be added. -/
theorem processSection_saf_mem (st : NodeIndex) (k : Nat) (sec : List Char) (s : Nat) :
    s ∈ (processSection st k sec).saf_stores ↔
      s ∈ st.saf_stores ∨ (s = k ∧ isSubstring safMarker sec = true) := by
  unfold processSection
  dsimp only
  set st1 := (if isSubstring safMarker sec = true then
      { st with saf_stores := setAdd st.saf_stores k } else st) with hst1
  have h1 : s ∈ st1.saf_stores ↔
      s ∈ st.saf_stores ∨ (s = k ∧ isSubstring safMarker sec = true) := by
    rw [hst1]
    split_ifs with hm
    · simp [mem_setAdd, hm]
    · simp [hm]
  split_ifs <;>
    simp only [foldSimple_saf, foldRich_saf] <;>
    simpa using h1

/-- Both-nodes-offline membership for stores other than the section's. -/
theorem processSection_both_other (st : NodeIndex) (k : Nat) (sec : List Char) (s : Nat)
    (hs : s ≠ k) :
    s ∈ (processSection st k sec).both_nodes_offline_stores ↔
      s ∈ st.both_nodes_offline_stores := by
  unfold processSection
  dsimp only
  set st1 := (if isSubstring safMarker sec = true then
      { st with saf_stores := setAdd st.saf_stores k } else st) with hst1
  have h1 : st1.both_nodes_offline_stores = st.both_nodes_offline_stores := by
    rw [hst1]; split_ifs <;> rfl
  split_ifs <;>
    simp only [foldSimple_both, foldRich_both, mem_setAdd] <;>
    simp [h1, hs]

/-- Both-nodes-offline membership for the section's own store. -/
theorem processSection_both_self (st : NodeIndex) (k : Nat) (sec : List Char) :
    k ∈ (processSection st k sec).both_nodes_offline_stores ↔
      k ∈ st.both_nodes_offline_stores ∨
        2 ≤ ((dget (processSection st k sec).offline_nodes k).getD []).length := by
  unfold processSection
  dsimp only
  set st1 := (if isSubstring safMarker sec = true then
      { st with saf_stores := setAdd st.saf_stores k } else st) with hst1
  have h1 : st1.both_nodes_offline_stores = st.both_nodes_offline_stores := by
    rw [hst1]; split_ifs <;> rfl
  split_ifs with hk hemp hlen hlen <;>
    simp only [foldSimple_both, foldRich_both, mem_setAdd] <;>
    simp_all [h1]

/-- Invariant: every SAF-flagged store is a key of the coarse map (the
section loop creates the key before the SAF store can be recorded). -/
def SafKeys (st : NodeIndex) : Prop :=
  ∀ s ∈ st.saf_stores, (dget st.offline_nodes s).isSome = true

theorem processSection_safKeys (st : NodeIndex) (k : Nat) (sec : List Char)
    (h : SafKeys st) : SafKeys (processSection st k sec) := by
  intro s hs
  by_cases hsk : s = k
  · subst hsk
    obtain ⟨l, hl, _⟩ := processSection_coarse_self st s sec
    simp [hl]
  · rcases (processSection_saf_mem st k sec s).1 hs with hold | ⟨rfl, _⟩
    · rw [processSection_coarse_other st k sec s hsk]
      exact h s hold
    · exact absurd rfl hsk

theorem foldl_sections_inv (P : NodeIndex → Prop)
    (hstep : ∀ st k sec, P st → P (processSection st k sec)) :
    ∀ (secs : List (Nat × List Char)) (st : NodeIndex), P st →
      P (secs.foldl (fun st p => processSection st p.1 p.2) st)
  | [], _, h => h
  | p :: ps, st, h => foldl_sections_inv P hstep ps _ (hstep st p.1 p.2 h)

theorem load_safKeys (content : String) (idx : NodeIndex)
    (h : loadOfflineNodes content = some idx) : SafKeys idx := by
  unfold loadOfflineNodes at h
  dsimp only at h
  split_ifs at h <;> (try cases h)
  exact foldl_sections_inv SafKeys processSection_safKeys _ _ (fun s hs => by cases hs)

/-- C4: for a ticket whose extracted store number is SAF-flagged in a
loaded index, the open path yields `needs_review` / `critical_saf` / `high`
and the closed path yields `suggest_reopen` / `critical_saf` / `high`,
irrespective of the ticket's node number and of any textual business
flag. -/
theorem C4_saf_store_short_circuit :
    ∀ content idx t now s, loadOfflineNodes content = some idx →
      t.store_number = some s → s ∈ idx.saf_stores →
      ((t.is_closed = false → ∀ r, analyze_ticket idx t now = Except.ok r →
        r.status = "needs_review" ∧ r.business_logic_flag = "critical_saf" ∧
        r.confidence = "high") ∧
       (t.is_closed = true → ∀ r, analyze_closed_ticket idx t now = Except.ok r →
        r.status = "suggest_reopen" ∧ r.business_logic_flag = "critical_saf" ∧
        r.confidence = "high")) := by
  intro content idx t now s hload hstore hsaf
  constructor
  · intro hopen r h
    unfold analyze_ticket at h
    dsimp only at h
    cases htemp : analyze_temporal_correlation idx t now with
    | error e => rw [htemp] at h; cases h
    | ok trip =>
      obtain ⟨ta, dof, ti⟩ := trip
      rw [htemp] at h
      dsimp only at h
      rw [hopen] at h
      simp only [Bool.false_eq_true, false_and, if_false] at h
      rw [hstore] at h
      dsimp only at h
      rw [if_pos hsaf] at h
      cases h
      exact ⟨rfl, rfl, rfl⟩
  · intro hclosed r h
    unfold analyze_closed_ticket at h
    rw [hstore] at h
    dsimp only at h
    cases htemp : analyze_temporal_correlation idx t now with
    | error e => rw [htemp] at h; cases h
    | ok trip =>
      obtain ⟨ta, dof, ti⟩ := trip
      rw [htemp] at h
      dsimp only at h
      have hkey : (dget idx.offline_nodes s).isSome = true :=
        load_safKeys content idx hload s hsaf
      rcases hlk : dget idx.offline_nodes s with _ | l
      · rw [hlk] at hkey
        cases hkey
      · rw [hlk] at h
        dsimp only at h
        rw [if_pos hsaf] at h
        cases h
        exact ⟨rfl, rfl, rfl⟩

/-- A report with one SAF-flagged store section. -/
def c4Report : String :=
  "Store #5198\n!!! SAF !!!\nNODE esp10-l01 OFFLINE. Last seen: 2025-07-01 00:00:00\n"

def c4Idx : NodeIndex := (loadOfflineNodes c4Report).getD {}

/-- Open ticket for the SAF store naming the online node 2 and carrying an
explicit do-not-close instruction: both must be ignored. -/
def c4OpenT : Ticket :=
  { site := "store 5198", number := "T4a", description := "DO NOT CLOSE NODE 2",
    priority := "P3", created := "2025-07-02 00:00:00", updated := "2025-07-03 00:00:00",
    store_number := some 5198, node_number := some 2 }

/-- Closed ticket for the SAF store, resolved long before `c4Now`. -/
def c4ClosedT : Ticket :=
  { c4OpenT with number := "T4b", resolved := some "2025-07-04 00:00:00" }

def c4Now : Int := 1752969600

def c4OpenRes : AnalysisResult := okPayload (analyze_ticket c4Idx c4OpenT c4Now)

def c4ClosedRes : AnalysisResult := okPayload (analyze_closed_ticket c4Idx c4ClosedT c4Now)

/-- C4 witness: the theorem applied to the loaded report fixture. -/
theorem C4_saf_store_short_circuit_witness :
    (c4OpenRes.status = "needs_review" ∧ c4OpenRes.business_logic_flag = "critical_saf" ∧
      c4OpenRes.confidence = "high") ∧
    (c4ClosedRes.status = "suggest_reopen" ∧
      c4ClosedRes.business_logic_flag = "critical_saf" ∧
      c4ClosedRes.confidence = "high") := by
  constructor
  · exact (C4_saf_store_short_circuit c4Report c4Idx c4OpenT c4Now 5198 rfl rfl
      (by decide)).1 rfl c4OpenRes rfl
  · exact (C4_saf_store_short_circuit c4Report c4Idx c4ClosedT c4Now 5198 rfl rfl
      (by decide)).2 rfl c4ClosedRes rfl

/-! ### Claim C9: header-only store sections -/

theorem processSection_coarse_self_empty (st : NodeIndex) (k : Nat) (sec : List Char)
    (h1 : findallRich sec = []) (h2 : findallSimple sec = [])
    (h0 : dget st.offline_nodes k = none) :
    dget (processSection st k sec).offline_nodes k = some [] := by
  unfold processSection
  dsimp only
  set st1 := (if isSubstring safMarker sec = true then
      { st with saf_stores := setAdd st.saf_stores k } else st) with hst1
  have hco1 : st1.offline_nodes = st.offline_nodes := by
    rw [hst1]; split_ifs <;> rfl
  simp only [hco1, h0, h1, h2, List.foldl_nil, if_pos]
  split_ifs with hlen <;> simp [dget_dset]

theorem fold_sections_coarse_skip (s : Nat) :
    ∀ (secs : List (Nat × List Char)) (st : NodeIndex),
      secs.filter (fun p => p.1 = s) = [] →
      dget ((secs.foldl (fun st p => processSection st p.1 p.2) st).offline_nodes) s
        = dget st.offline_nodes s
  | [], st, _ => rfl
  | p :: ps, st, h => by
    rw [List.filter_cons] at h
    split_ifs at h with hp
    have hps : p.1 ≠ s := by simpa using hp
    rw [List.foldl_cons, fold_sections_coarse_skip s ps _ h,
      processSection_coarse_other st p.1 p.2 s (Ne.symm hps)]

theorem fold_sections_coarse_single (s : Nat) (body : List Char)
    (hb1 : findallRich body = []) (hb2 : findallSimple body = []) :
    ∀ (secs : List (Nat × List Char)) (st : NodeIndex),
      secs.filter (fun p => p.1 = s) = [(s, body)] →
      dget st.offline_nodes s = none →
      dget ((secs.foldl (fun st p => processSection st p.1 p.2) st).offline_nodes) s
        = some []
  | [], _, h, _ => by cases h
  | p :: ps, st, h, h0 => by
    rw [List.filter_cons] at h
    split_ifs at h with hp
    · obtain ⟨hph, hpt⟩ := List.cons_eq_cons.mp h
      rw [List.foldl_cons, fold_sections_coarse_skip s ps _ hpt, hph,
        processSection_coarse_self_empty st s body hb1 hb2 h0]
    · have hps : p.1 ≠ s := by simpa using hp
      rw [List.foldl_cons]
      exact fold_sections_coarse_single s body hb1 hb2 ps _ h
        (by rw [processSection_coarse_other st p.1 p.2 s (Ne.symm hps)]; exact h0)

/-- C9: a store whose section header parses but whose section has no
recognizable node-down lines is still a key of the index with an empty
offline set, and an open ticket for it with no business flag and an
unresolved node number is routed to `needs_review`, not `can_close`. -/
theorem C9_empty_section_store_needs_review :
    ∀ content idx s body t now,
      loadOfflineNodes content = some idx →
      (splitStoreSections content.data).2.filter (fun p => p.1 = s) = [(s, body)] →
      findallRich body = [] → findallSimple body = [] →
      dget idx.offline_nodes s = some [] ∧
      (t.store_number = some s → t.is_closed = false →
        detect_business_logic_flags t.site t.description = (false, "") →
        t.node_number = none →
        ∀ r, analyze_ticket idx t now = Except.ok r →
          r.status = "needs_review" ∧ r.status ≠ "can_close") := by
  intro content idx s body t now hload hfil hb1 hb2
  have hkey : dget idx.offline_nodes s = some [] := by
    unfold loadOfflineNodes at hload
    dsimp only at hload
    split_ifs at hload <;> (try cases hload)
    exact fold_sections_coarse_single s body hb1 hb2 _ _ hfil rfl
  refine ⟨hkey, ?_⟩
  intro hstore hopen hdet hnode r h
  unfold analyze_ticket at h
  rw [hdet] at h
  dsimp only at h
  cases htemp : analyze_temporal_correlation idx t now with
  | error e => rw [htemp] at h; cases h
  | ok trip =>
    obtain ⟨ta, dof, ti⟩ := trip
    rw [htemp] at h
    dsimp only at h
    rw [hopen] at h
    simp only [Bool.false_eq_true, false_and, if_false] at h
    rw [hstore] at h
    dsimp only at h
    by_cases hsaf : s ∈ idx.saf_stores
    · rw [if_pos hsaf] at h
      cases h
      exact ⟨rfl, by simp [create_analysis_result]⟩
    · rw [if_neg hsaf] at h
      by_cases hboth : s ∈ idx.both_nodes_offline_stores
      · rw [if_pos hboth, hkey] at h
        dsimp only at h
        cases h
        exact ⟨rfl, by simp [create_analysis_result]⟩
      · rw [if_neg hboth] at h
        simp only [hkey, Option.isSome_some, Bool.false_eq_true, if_false, not_true] at h
        rw [hnode] at h
        dsimp only at h
        cases h
        exact ⟨rfl, by simp [create_analysis_result]⟩

/-- Report whose second store section contains no node-down lines. -/
def c9Report : String :=
  "Store #5198\nNODE esp10-l01 OFFLINE. Last seen: 2025-07-01 00:00:00\nStore #9\nno recognizable node lines here\n"

def c9Idx : NodeIndex := (loadOfflineNodes c9Report).getD {}

def c9Body : List Char := "\nno recognizable node lines here\n".data

def c9T : Ticket :=
  { site := "store nine", number := "T9", description := "link down",
    priority := "P3", created := "2025-07-02 00:00:00", updated := "2025-07-03 00:00:00",
    store_number := some 9, node_number := none }

def c9Now : Int := 1752969600

def c9Res : AnalysisResult := okPayload (analyze_ticket c9Idx c9T c9Now)

/-- C9 witness: store 9 is a key with an empty offline set and its open
ticket is routed to `needs_review`. -/
theorem C9_empty_section_store_needs_review_witness :
    dget c9Idx.offline_nodes 9 = some [] ∧ c9Res.status = "needs_review" := by
  have h := C9_empty_section_store_needs_review c9Report c9Idx 9 c9Body c9T c9Now
    rfl rfl rfl rfl
  exact ⟨h.1, (h.2 rfl rfl rfl rfl c9Res rfl).1⟩

/-! ### Claim C7: index invariants -/

theorem mem_dset {κ α : Type} [DecidableEq κ] (d : List (κ × α)) (k : κ) (v : α)
    (k2 : κ) (v2 : α) (h : (k2, v2) ∈ dset d k v) :
    (k2 = k ∧ v2 = v) ∨ (k2, v2) ∈ d := by
  induction d with
  | nil =>
    rw [dset] at h
    rcases List.mem_singleton.mp h with he
    exact Or.inl ⟨congrArg Prod.fst he, congrArg Prod.snd he⟩
  | cons p rest ih =>
    obtain ⟨k0, v0⟩ := p
    rw [dset] at h
    split_ifs at h with hk
    · rcases List.mem_cons.mp h with he | hm
      · simp only [Prod.mk.injEq] at he
        exact Or.inl ⟨he.1.trans hk.symm, he.2⟩
      · exact Or.inr (List.mem_cons_of_mem _ hm)
    · rcases List.mem_cons.mp h with he | hm
      · exact Or.inr (List.mem_cons.mpr (Or.inl he))
      · rcases ih hm with h1 | h2
        · exact Or.inl h1
        · exact Or.inr (List.mem_cons_of_mem _ h2)

theorem matchRichAt_char (cs : List Char) (m : List Char × Char × List Char)
    (rest : List Char) (h : matchRichAt cs = some (m, rest)) :
    m.2.1 = '1' ∨ m.2.1 = '2' := by
  unfold matchRichAt at h
  rw [Option.bind_eq_some] at h
  obtain ⟨r1, _, h⟩ := h
  rw [Option.bind_eq_some] at h
  obtain ⟨r2, _, h⟩ := h
  rw [Option.bind_eq_some] at h
  obtain ⟨r3, _, h⟩ := h
  rw [Option.bind_eq_some] at h
  obtain ⟨p4, _, h⟩ := h
  rw [Option.bind_eq_some] at h
  obtain ⟨r5, _, h⟩ := h
  cases r5 with
  | nil => cases h
  | cons c r6 =>
    dsimp only at h
    split_ifs at h with hc
    rw [Option.bind_eq_some] at h
    obtain ⟨r7, _, h⟩ := h
    rw [Option.bind_eq_some] at h
    obtain ⟨r8, _, h⟩ := h
    rw [Option.bind_eq_some] at h
    obtain ⟨r9, _, h⟩ := h
    rw [Option.bind_eq_some] at h
    obtain ⟨r10, _, h⟩ := h
    rw [Option.map_eq_some'] at h
    obtain ⟨pc, _, h2⟩ := h
    have hm : m = (p4.1, c, pc.1) := (congrArg Prod.fst h2).symm
    rw [hm]
    exact hc

theorem findallRichAux_char : ∀ (fuel : Nat) (cs : List Char)
    (m : List Char × Char × List Char), m ∈ findallRichAux fuel cs →
    m.2.1 = '1' ∨ m.2.1 = '2'
  | 0, _, _, h => by cases h
  | _ + 1, [], _, h => by cases h
  | fuel + 1, c :: cs, m, h => by
    rw [findallRichAux] at h
    cases hm : matchRichAt (c :: cs) with
    | some pr =>
      rw [hm] at h
      rcases List.mem_cons.mp h with he | hmem
      · exact he ▸ matchRichAt_char (c :: cs) pr.1 pr.2 (by rw [hm])
      · exact findallRichAux_char fuel pr.2 m hmem
    | none =>
      rw [hm] at h
      exact findallRichAux_char fuel cs m h

theorem findallRich_char (cs : List Char) (m : List Char × Char × List Char)
    (h : m ∈ findallRich cs) : m.2.1 = '1' ∨ m.2.1 = '2' :=
  findallRichAux_char cs.length cs m h

/-- Invariant: every detailed entry has node in {1,2} and is a member of
the coarse entry for its store. -/
def DetailInv (st : NodeIndex) : Prop :=
  ∀ s n nd, ((s, n), nd) ∈ st.offline_nodes_detailed →
    (n = 1 ∨ n = 2) ∧ ∃ l, dget st.offline_nodes s = some l ∧ n ∈ l

/-- Invariant: both-nodes-offline membership is exactly coarse set size 2+. -/
def BothInv (st : NodeIndex) : Prop :=
  ∀ s, s ∈ st.both_nodes_offline_stores ↔
    ∃ l, dget st.offline_nodes s = some l ∧ 2 ≤ l.length

theorem detailInv_of_eq (a b : NodeIndex) (h1 : a.offline_nodes = b.offline_nodes)
    (h2 : a.offline_nodes_detailed = b.offline_nodes_detailed) (h : DetailInv b) :
    DetailInv a := by
  intro s n nd hm
  rw [h2] at hm
  rw [h1]
  exact h s n nd hm

theorem addRich_detailInv (k : Nat) (st : NodeIndex) (m : List Char × Char × List Char)
    (hc : m.2.1 = '1' ∨ m.2.1 = '2') (h : DetailInv st) :
    DetailInv (addRichMatch k st m) := by
  intro s n nd hmem
  unfold addRichMatch at hmem ⊢
  dsimp only at hmem ⊢
  rcases mem_dset _ _ _ _ _ hmem with ⟨hk, _⟩ | hold
  · simp only [Prod.mk.injEq] at hk
    obtain ⟨rfl, rfl⟩ := hk
    constructor
    · rcases hc with h1 | h1 <;> rw [h1] <;> decide
    · refine ⟨_, by rw [dget_dset, if_pos rfl], ?_⟩
      exact (mem_setAdd _ _ _).mpr (Or.inr rfl)
  · obtain ⟨hn, l, hl, hnl⟩ := h s n nd hold
    refine ⟨hn, ?_⟩
    by_cases hsk : s = k
    · subst hsk
      refine ⟨_, by rw [dget_dset, if_pos rfl], ?_⟩
      rw [hl]
      exact (mem_setAdd _ _ _).mpr (Or.inl hnl)
    · exact ⟨l, by rw [dget_dset, if_neg hsk]; exact hl, hnl⟩

theorem addSimple_detailInv (k : Nat) (st : NodeIndex) (c : Char)
    (h : DetailInv st) : DetailInv (addSimpleMatch k st c) := by
  intro s n nd hmem
  unfold addSimpleMatch at hmem ⊢
  dsimp only at hmem ⊢
  obtain ⟨hn, l, hl, hnl⟩ := h s n nd hmem
  refine ⟨hn, ?_⟩
  by_cases hsk : s = k
  · subst hsk
    refine ⟨_, by rw [dget_dset, if_pos rfl], ?_⟩
    rw [hl]
    exact (mem_setAdd _ _ _).mpr (Or.inl hnl)
  · exact ⟨l, by rw [dget_dset, if_neg hsk]; exact hl, hnl⟩

theorem foldRich_detailInv (k : Nat) (ms : List (List Char × Char × List Char)) :
    ∀ (st : NodeIndex), (∀ m ∈ ms, m.2.1 = '1' ∨ m.2.1 = '2') → DetailInv st →
      DetailInv (ms.foldl (addRichMatch k) st) := by
  induction ms with
  | nil => intro st _ h; exact h
  | cons m ms ih =>
    intro st hms h
    rw [List.foldl_cons]
    exact ih _ (fun m2 hm2 => hms m2 (List.mem_cons_of_mem _ hm2))
      (addRich_detailInv k st m (hms m (List.mem_cons_self _ _)) h)

theorem foldSimple_detailInv (k : Nat) (cs : List Char) :
    ∀ (st : NodeIndex), DetailInv st → DetailInv (cs.foldl (addSimpleMatch k) st) := by
  induction cs with
  | nil => intro st h; exact h
  | cons c cs ih =>
    intro st h
    rw [List.foldl_cons]
    exact ih _ (addSimple_detailInv k st c h)

theorem processSection_detailInv (st : NodeIndex) (k : Nat) (sec : List Char)
    (h : DetailInv st) : DetailInv (processSection st k sec) := by
  unfold processSection
  dsimp only
  set st1 := (if isSubstring safMarker sec = true then
      { st with saf_stores := setAdd st.saf_stores k } else st) with hst1
  have h1 : DetailInv st1 := by
    refine detailInv_of_eq st1 st ?_ ?_ h <;> (rw [hst1]; split_ifs <;> rfl)
  set st2 := (if dget st1.offline_nodes k = none then
      { st1 with offline_nodes := dset st1.offline_nodes k [] } else st1) with hst2
  have h2 : DetailInv st2 := by
    rw [hst2]
    split_ifs with hnone
    · intro s n nd hmem
      obtain ⟨hn, l, hl, hnl⟩ := h1 s n nd hmem
      refine ⟨hn, ?_⟩
      by_cases hsk : s = k
      · subst hsk
        rw [hl] at hnone
        cases hnone
      · exact ⟨l, by dsimp only; rw [dget_dset, if_neg hsk]; exact hl, hnl⟩
    · exact h1
  have h3 : DetailInv ((findallRich sec).foldl (addRichMatch k) st2) :=
    foldRich_detailInv k (findallRich sec) st2
      (fun m hm => findallRich_char sec m hm) h2
  by_cases hemp : findallRich sec = []
  · simp only [hemp, List.foldl_nil, if_pos]
    have h4 : DetailInv ((findallSimple sec).foldl (addSimpleMatch k) st2) :=
      foldSimple_detailInv k (findallSimple sec) st2 h2
    split_ifs with hlen
    · exact detailInv_of_eq _ _ rfl rfl h4
    · exact h4
  · simp only [hemp, if_neg, if_false]
    split_ifs with hlen
    · exact detailInv_of_eq _ _ rfl rfl h3
    · exact h3

theorem processSection_bothInv (st : NodeIndex) (k : Nat) (sec : List Char)
    (h : BothInv st) : BothInv (processSection st k sec) := by
  intro s
  by_cases hsk : s = k
  · subst hsk
    rw [processSection_both_self]
    obtain ⟨l2, hl2, hlen⟩ := processSection_coarse_self st s sec
    constructor
    · rintro (hold | hge)
      · obtain ⟨l0, hl0, hge0⟩ := (h s).1 hold
        refine ⟨l2, hl2, ?_⟩
        rw [hl0] at hlen
        exact le_trans hge0 hlen
      · rw [hl2] at hge
        exact ⟨l2, hl2, hge⟩
    · rintro ⟨l3, hl3, hge3⟩
      right
      rw [hl3]
      exact hge3
  · rw [processSection_both_other st k sec s hsk,
      processSection_coarse_other st k sec s hsk]
    exact h s

theorem load_index_invariants (content : String) (idx : NodeIndex)
    (h : loadOfflineNodes content = some idx) : DetailInv idx ∧ BothInv idx := by
  unfold loadOfflineNodes at h
  dsimp only at h
  split_ifs at h <;> (try cases h)
  constructor
  · exact foldl_sections_inv DetailInv processSection_detailInv _ _
      (fun s n nd hm => by cases hm)
  · exact foldl_sections_inv BothInv processSection_bothInv _ _
      (fun s => by constructor <;> rintro h2 <;> simp_all [dget])

/-- C7: after `load_offline_nodes` accepts a report, every (store, node)
key of the detailed map has node in {1,2} and node is a member of the
coarse map's set for that store; and a store is in the both-nodes-offline
set exactly when its coarse offline set has size at least 2. -/
theorem C7_index_invariants :
    ∀ content idx, loadOfflineNodes content = some idx →
      (∀ s n nd, ((s, n), nd) ∈ idx.offline_nodes_detailed →
        (n = 1 ∨ n = 2) ∧ ∃ l, dget idx.offline_nodes s = some l ∧ n ∈ l) ∧
      (∀ s, s ∈ idx.both_nodes_offline_stores ↔
        ∃ l, dget idx.offline_nodes s = some l ∧ 2 ≤ l.length) :=
  fun content idx h => load_index_invariants content idx h

/-- Report with two offline nodes at one store. -/
def c7Report : String :=
  "Store #7\nNODE esp22-l01 OFFLINE. Last seen: 2025-07-05 00:00:00\nNODE esp23-l02 OFFLINE. Last seen: 2025-07-06 00:00:00\n"

def c7Idx : NodeIndex := (loadOfflineNodes c7Report).getD {}

def c7Node1 : OfflineNode :=
  { store_number := 7, node_number := 1, esp_id := "esp22-l01",
    last_seen := "2025-07-05 00:00:00" }

set_option maxRecDepth 4096 in
/-- C7 witness: the invariants applied to the loaded two-node report. -/
theorem C7_index_invariants_witness :
    ((1 = 1 ∨ 1 = 2) ∧ ∃ l, dget c7Idx.offline_nodes 7 = some l ∧ 1 ∈ l) ∧
    7 ∈ c7Idx.both_nodes_offline_stores := by
  have h := C7_index_invariants c7Report c7Idx rfl
  constructor
  · exact h.1 7 1 c7Node1 (by decide)
  · exact (h.2 7).mpr ⟨[1, 2], rfl, by decide⟩

/-! ### Claim C8: missing-ticket advisories -/

theorem missingForStore_store (idx : NodeIndex) (stores : List Nat) (p : Nat × List Nat)
    (m : MissingTicket) (h : m ∈ missingForStore idx stores p) :
    m.store_number = p.1 := by
  unfold missingForStore at h
  dsimp only at h
  by_cases h1 : p.1 ∈ stores
  · rw [if_pos h1] at h
    cases h
  · rw [if_neg h1] at h
    obtain ⟨n, _, rfl⟩ := List.mem_map.mp h
    rfl

theorem missingForStore_skip (idx : NodeIndex) (stores : List Nat) (p : Nat × List Nat)
    (h : p.1 ∈ stores) : missingForStore idx stores p = [] := by
  unfold missingForStore
  dsimp only
  rw [if_pos h]

/-- C8: for every index and stores-with-tickets set (with distinct coarse
keys), each store of the index absent from the stores-with-tickets set
yields exactly one advisory per offline node — the advisories filtered to
that store list its sorted offline nodes — with priority `CRITICAL - SAF`
and urgency Immediate when SAF-flagged, else `CRITICAL - Both Nodes` /
Immediate when both-nodes-offline, else `High` when more than one node is
offline, else `Medium`; stores that have tickets get no advisory. -/
theorem C8_missing_ticket_advisories :
    ∀ idx stores_with_tickets s ns,
      (idx.offline_nodes.map Prod.fst).Nodup →
      (s, ns) ∈ idx.offline_nodes →
      ((s ∉ stores_with_tickets →
        (((get_missing_tickets idx stores_with_tickets).filter
            (fun m => m.store_number = s)).map (fun m => m.node_number) = sortNats ns ∧
         ∀ m ∈ get_missing_tickets idx stores_with_tickets, m.store_number = s →
          m.priority = (if s ∈ idx.saf_stores then "CRITICAL - SAF"
            else if s ∈ idx.both_nodes_offline_stores then "CRITICAL - Both Nodes"
            else if 1 < ns.length then "High" else "Medium") ∧
          m.urgency = (if s ∈ idx.saf_stores then "Immediate"
            else if s ∈ idx.both_nodes_offline_stores then "Immediate"
            else if 1 < ns.length then "High" else "Medium"))) ∧
       (s ∈ stores_with_tickets →
        (get_missing_tickets idx stores_with_tickets).filter
            (fun m => m.store_number = s) = [])) := by
  intro idx stores s ns hnd hmem
  have hadvval : s ∉ stores →
      ((missingForStore idx stores (s, ns)).map (fun m => m.node_number) = sortNats ns ∧
       ∀ m ∈ missingForStore idx stores (s, ns),
        m.priority = (if s ∈ idx.saf_stores then "CRITICAL - SAF"
          else if s ∈ idx.both_nodes_offline_stores then "CRITICAL - Both Nodes"
          else if 1 < ns.length then "High" else "Medium") ∧
        m.urgency = (if s ∈ idx.saf_stores then "Immediate"
          else if s ∈ idx.both_nodes_offline_stores then "Immediate"
          else if 1 < ns.length then "High" else "Medium")) := by
    intro hs
    unfold missingForStore
    dsimp only
    rw [if_neg hs]
    constructor
    · rw [List.map_map]
      exact List.map_id (sortNats ns)
    · intro m hm
      obtain ⟨n, _, rfl⟩ := List.mem_map.mp hm
      by_cases hsaf : s ∈ idx.saf_stores <;>
        by_cases hboth : s ∈ idx.both_nodes_offline_stores <;>
        by_cases hlen : 1 < ns.length <;>
        simp [hsaf, hboth, hlen]
  unfold get_missing_tickets
  revert hmem hnd
  generalize idx.offline_nodes = L
  intro hnd hmem
  induction L with
  | nil => cases hmem
  | cons p rest ih =>
    rw [List.map_cons, List.flatten_cons, List.filter_append]
    rw [List.map_cons, List.nodup_cons] at hnd
    rcases List.mem_cons.mp hmem with he | hm
    · subst he
      have hrest : (((rest.map (missingForStore idx stores)).flatten).filter
          (fun m => m.store_number = s)) = [] := by
        rw [List.filter_eq_nil_iff]
        intro m hm2
        obtain ⟨adv, hadv, hmadv⟩ := List.mem_flatten.mp hm2
        obtain ⟨q, hq, rfl⟩ := List.mem_map.mp hadv
        have hq1 := missingForStore_store idx stores q m hmadv
        simp only [hq1, decide_eq_true_eq]
        intro hqs
        exact hnd.1 (by rw [← hqs]; exact List.mem_map.mpr ⟨q, hq, rfl⟩)
      constructor
      · intro hs
        refine ⟨?_, ?_⟩
        · rw [hrest, List.append_nil]
          have hall : (missingForStore idx stores (s, ns)).filter
              (fun m => m.store_number = s) = missingForStore idx stores (s, ns) := by
            rw [List.filter_eq_self]
            intro m hm2
            simp [missingForStore_store idx stores (s, ns) m hm2]
          rw [hall]
          exact (hadvval hs).1
        · intro m hm2 hms
          rcases List.mem_append.mp hm2 with h1 | h1
          · exact (hadvval hs).2 m h1
          · exfalso
            obtain ⟨adv, hadv, hmadv⟩ := List.mem_flatten.mp h1
            obtain ⟨q, hq, rfl⟩ := List.mem_map.mp hadv
            have hq1 := missingForStore_store idx stores q m hmadv
            rw [hms] at hq1
            exact hnd.1 (by rw [hq1]; exact List.mem_map.mpr ⟨q, hq, rfl⟩)
      · intro hs
        rw [missingForStore_skip idx stores (s, ns) hs]
        simp [hrest]
    · have hps : p.1 ≠ s := by
        intro he
        exact hnd.1 (he ▸ List.mem_map.mpr ⟨(s, ns), hm, rfl⟩)
      have hhead : (missingForStore idx stores p).filter (fun m => m.store_number = s) = [] := by
        rw [List.filter_eq_nil_iff]
        intro m hm2
        simp [missingForStore_store idx stores p m hm2, hps]
      have ihh := ih hnd.2 hm
      constructor
      · intro hs
        refine ⟨?_, ?_⟩
        · rw [hhead, List.nil_append]
          exact (ihh.1 hs).1
        · intro m hm2 hms
          rcases List.mem_append.mp hm2 with h1 | h1
          · exact absurd ((missingForStore_store idx stores p m h1).symm.trans hms) hps
          · exact (ihh.1 hs).2 m h1 hms
      · intro hs
        rw [hhead, List.nil_append]
        exact ihh.2 hs

/-- Index fixture: SAF store 5, both-offline store 6, store 7 (has a
ticket), store 8 with one offline node. -/
def c8Idx : NodeIndex :=
  { offline_nodes := [(5, [1]), (6, [1, 2]), (7, [1]), (8, [2])],
    saf_stores := [5], both_nodes_offline_stores := [6] }

/-- C8 witness: store 6 (no ticket) gets one advisory per offline node;
store 7 (has a ticket) gets none; store 5 advisories are CRITICAL - SAF. -/
theorem C8_missing_ticket_advisories_witness :
    ((((get_missing_tickets c8Idx [7]).filter (fun m => m.store_number = 6)).map
        (fun m => m.node_number)) = [1, 2]) ∧
    ((get_missing_tickets c8Idx [7]).filter (fun m => m.store_number = 7) = []) ∧
    (∀ m ∈ get_missing_tickets c8Idx [7], m.store_number = 5 →
      m.priority = "CRITICAL - SAF" ∧ m.urgency = "Immediate") := by
  have h6 := C8_missing_ticket_advisories c8Idx [7] 6 [1, 2] (by decide) (by decide)
  have h7 := C8_missing_ticket_advisories c8Idx [7] 7 [1] (by decide) (by decide)
  have h5 := C8_missing_ticket_advisories c8Idx [7] 5 [1] (by decide) (by decide)
  refine ⟨(h6.1 (by decide)).1, h7.2 (by decide), ?_⟩
  intro m hm hm5
  have := (h5.1 (by decide)).2 m hm hm5
  simpa using this

end Noder
